import Mathlib

/-!
Verification development for the BookShook admin worker's book curation and
publication core (src/src/routes/admin.ts): validation engine, tag-cap
enforcement, duplicate detection, publish/diff, intake review, idempotency.

Each TypeScript function the claims touch is embedded as an executable Lean
definition; SQL queries are embedded by their declarative semantics (the
WHERE clause as a predicate over the modelled rows).
-/

namespace BookShook

/-- A tag row (tags table) as selected by the admin routes:
id, category key, slug, name and the requires_evidence flag. -/
structure Tag where
  id : String
  category : String
  slug : String
  name : String
  requiresEvidence : Bool
deriving DecidableEq, Repr

/-- An evidence_links row: target_type ('tag' | 'axis') and target_id. -/
structure EvidenceLink where
  targetType : String
  targetId : String
deriving DecidableEq, Repr

/-- An evidence row together with its links (as the validation endpoint
joins evidence with evidence_links). -/
structure EvidenceRec where
  id : String
  links : List EvidenceLink
deriving DecidableEq, Repr

/-- The five axis slots of a book_axes row, each an optional tag id
(null column = `none`). -/
structure Axes where
  worldFramework : Option String
  pairing : Option String
  heatLevel : Option String
  seriesStatus : Option String
  consentMode : Option String
deriving DecidableEq, Repr

/-- A cover book_assets row: its state and version. -/
structure CoverAsset where
  state : String
  version : Nat
deriving DecidableEq, Repr

/-- The asset state handed to computeValidation: `{ cover: assetRows[0] || null }`. -/
structure Assets where
  cover : Option CoverAsset
deriving DecidableEq, Repr

/-- A gate entry pushed by computeValidation: `{ id, ok, missing? }`. -/
structure Gate where
  id : String
  ok : Bool
  missing : Option (List String)
deriving DecidableEq, Repr

/-- A contradiction entry: `{ ruleId, severity, message }`. -/
structure Contradiction where
  ruleId : String
  severity : String
  message : String
deriving DecidableEq, Repr

/-- A cap report entry: `{ category, count, max, ok }`. -/
structure CapReport where
  category : String
  count : Nat
  max : Nat
  ok : Bool
deriving DecidableEq, Repr

/-- The queue flags computed at the end of computeValidation. -/
structure QueueFlags where
  unfinished : Bool
  needsEvidence : Bool
  contradiction : Bool
deriving DecidableEq, Repr

/-- The result record of computeValidation. -/
structure ValidationResult where
  gates : List Gate
  contradictions : List Contradiction
  caps : List CapReport
  queues : QueueFlags
deriving DecidableEq, Repr

/-- The tag map `Record<string, any[]>` grouped by category, as an
association list in insertion order. -/
def TagMap := List (String × List Tag)
deriving DecidableEq, Repr

/-- `tags[category]` access (undefined = `none`). -/
def TagMap.get (m : TagMap) (category : String) : Option (List Tag) :=
  (List.find? (fun p => p.1 == category) m).map (fun p => p.2)

/-- `Object.values(tags).flat()`. -/
def TagMap.allTags (m : TagMap) : List Tag :=
  (List.map (fun (p : String × List Tag) => p.2) m).flatten

/-- The category cap table declared at the top of admin.ts (CATEGORY_CAPS). -/
def CATEGORY_CAPS : List (String × Nat) :=
  [("trope", 8), ("plot_engine", 2), ("setting_wrapper", 2), ("seasonal_wrapper", 1)]

/-- The required axes list inside computeValidation. -/
def requiredAxes : List String :=
  ["worldFramework", "pairing", "heatLevel", "seriesStatus", "consentMode"]

/-- Dynamic `axes[a]` access for the five axis field names. -/
def Axes.get (a : Axes) (k : String) : Option String :=
  if k == "worldFramework" then a.worldFramework
  else if k == "pairing" then a.pairing
  else if k == "heatLevel" then a.heatLevel
  else if k == "seriesStatus" then a.seriesStatus
  else if k == "consentMode" then a.consentMode
  else none

/-- The content-warning slugs checked by the consent contradiction rule. -/
def nonConSlugs : List String :=
  ["non-consent", "noncon", "dubious-consent", "dubcon", "sexual-assault"]

/-- The consent-mode slugs that conflict with those warnings. -/
def consentConflictSlugs : List String := ["clear-explicit", "negotiated"]

/-- Evidence check: does some evidence record link to tag `t`
(`e.links?.some(l => l.targetType === 'tag' && l.targetId === t.id)`)? -/
def hasLinkedEvidence (evidence : List EvidenceRec) (t : Tag) : Bool :=
  evidence.any (fun e => e.links.any (fun l => l.targetType == "tag" && l.targetId == t.id))

/-- The `missingAxes` local of computeValidation:
`requiredAxes.filter(a => !axes[a])`. -/
def missingAxesOf (axes : Axes) : List String :=
  requiredAxes.filter (fun a => (axes.get a).isNone)

/-- The REQ_AXES gate pushed by computeValidation. -/
def axesGate (axes : Axes) : Gate :=
  { id := "REQ_AXES", ok := (missingAxesOf axes).isEmpty,
    missing := if (missingAxesOf axes).length > 0 then some (missingAxesOf axes) else none }

/-- The REQ_COVER gate: `ok: assets.cover?.state === 'ready'`. -/
def coverGate (assets : Assets) : Gate :=
  { id := "REQ_COVER",
    ok := match assets.cover with
          | some c => c.state == "ready"
          | none => false,
    missing := none }

/-- The cap reports: `{category, count, max, ok: count <= max}` per CATEGORY_CAPS. -/
def capsOf (tags : TagMap) : List CapReport :=
  CATEGORY_CAPS.map (fun p =>
    let count := ((tags.get p.1).getD []).length
    { category := p.1, count := count, max := p.2, ok := count ≤ p.2 })

/-- `highStakesTags`: all attached tags flagged requires_evidence. -/
def highStakesTagsOf (tags : TagMap) : List Tag :=
  tags.allTags.filter (fun t => t.requiresEvidence)

/-- `tagsWithoutEvidence`: high-stakes tags with no linked evidence record. -/
def tagsWithoutEvidenceOf (tags : TagMap) (evidence : List EvidenceRec) : List Tag :=
  (highStakesTagsOf tags).filter (fun t => !hasLinkedEvidence evidence t)

/-- The REQ_EVIDENCE gate pushes (zero or one gate, per the if/else-if chain). -/
def evidenceGatesOf (tags : TagMap) (evidence : List EvidenceRec) : List Gate :=
  if (tagsWithoutEvidenceOf tags evidence).length > 0 then
    [{ id := "REQ_EVIDENCE", ok := false,
       missing := some ((tagsWithoutEvidenceOf tags evidence).map (fun t => t.name)) }]
  else if (highStakesTagsOf tags).length > 0 then
    [{ id := "REQ_EVIDENCE", ok := true, missing := none }]
  else []

/-- The gates array in push order: REQ_AXES, REQ_COVER, then the evidence gate. -/
def gatesOf (axes : Axes) (tags : TagMap) (evidence : List EvidenceRec)
    (assets : Assets) : List Gate :=
  [axesGate axes, coverGate assets] ++ evidenceGatesOf tags evidence

/-- The contradiction rule block: looks up the consent-mode tag's slug in the
tags table (`lookupSlug`) and raises CONSENT_WARNING_MISMATCH. -/
def contradictionsOf (lookupSlug : String → Option String) (axes : Axes)
    (tags : TagMap) : List Contradiction :=
  match axes.consentMode with
  | none => []
  | some cid =>
    let consentSlug := lookupSlug cid
    let hasNonCon := ((tags.get "content_warning").getD []).any
      (fun t => nonConSlugs.contains t.slug)
    let slugConflicts := match consentSlug with
      | some s => consentConflictSlugs.contains s
      | none => false
    if slugConflicts && hasNonCon then
      [{ ruleId := "CONSENT_WARNING_MISMATCH", severity := "hard",
         message := "Consent Mode conflicts with Non-Consent/Dubious Consent/SA warnings" }]
    else []

/-- The queue flags computed from the gates, contradictions and asset state. -/
def queuesOf (gates : List Gate) (contradictions : List Contradiction)
    (assets : Assets) : QueueFlags :=
  { unfinished := gates.any (fun g => !g.ok && g.id == "REQ_AXES") || assets.cover.isNone,
    needsEvidence := gates.any (fun g => !g.ok && g.id == "REQ_EVIDENCE"),
    contradiction := contradictions.any (fun c => c.severity == "hard") }

/-- `computeValidation` (admin.ts lines 28-105).  The tags-table lookup
performed for the consent-mode slug (`SELECT slug FROM tags WHERE id = ...`)
is passed in as `lookupSlug` (a row with a null slug or no row = `none`). -/
def computeValidation (lookupSlug : String → Option String) (axes : Axes)
    (tags : TagMap) (evidence : List EvidenceRec) (assets : Assets) :
    ValidationResult :=
  let gates := gatesOf axes tags evidence assets
  let contradictions := contradictionsOf lookupSlug axes tags
  { gates := gates
    contradictions := contradictions
    caps := capsOf tags
    queues := queuesOf gates contradictions assets }

/-! ### Specification-side predicates for the validation engine -/

/-- Spec-side: tag `t` has no evidence record whose links include `t.id`. -/
def LacksEvidence (evidence : List EvidenceRec) (t : Tag) : Prop :=
  ¬ ∃ e ∈ evidence, ∃ l ∈ e.links, l.targetType = "tag" ∧ l.targetId = t.id

instance (evidence : List EvidenceRec) (t : Tag) : Decidable (LacksEvidence evidence t) := by
  unfold LacksEvidence; infer_instance

/-- Spec-side: the consent-conflict condition of the shipped contradiction rule:
the consent-mode axis tag's slug is clear-explicit/negotiated and the book
carries a non-consent style content-warning tag. -/
def ConsentConflict (lookupSlug : String → Option String) (axes : Axes) (tags : TagMap) : Prop :=
  ∃ cid, axes.consentMode = some cid
    ∧ (∃ s, lookupSlug cid = some s ∧ s ∈ consentConflictSlugs)
    ∧ ∃ t ∈ (tags.get "content_warning").getD [], t.slug ∈ nonConSlugs

instance (l : String → Option String) (a : Axes) (m : TagMap) :
    Decidable (ConsentConflict l a m) := by
  unfold ConsentConflict
  cases a.consentMode <;> simp <;> infer_instance

/-- The single shipped contradiction value. -/
def consentMismatch : Contradiction :=
  { ruleId := "CONSENT_WARNING_MISMATCH", severity := "hard",
    message := "Consent Mode conflicts with Non-Consent/Dubious Consent/SA warnings" }

lemma hasLinkedEvidence_false_iff (evidence : List EvidenceRec) (t : Tag) :
    hasLinkedEvidence evidence t = false ↔ LacksEvidence evidence t := by
  simp [hasLinkedEvidence, LacksEvidence, List.any_eq_true]

lemma lacks_filter_eq (evidence : List EvidenceRec) (l : List Tag) :
    l.filter (fun t => !hasLinkedEvidence evidence t && t.requiresEvidence)
      = l.filter (fun t => decide (t.requiresEvidence = true ∧ LacksEvidence evidence t)) := by
  apply List.filter_congr
  intro t _
  cases hr : t.requiresEvidence with
  | false => simp [hr]
  | true =>
    by_cases hl : LacksEvidence evidence t
    · simp [hr, hl, (hasLinkedEvidence_false_iff evidence t).2 hl]
    · have hle : hasLinkedEvidence evidence t = true := by
        cases h : hasLinkedEvidence evidence t
        · exact absurd ((hasLinkedEvidence_false_iff evidence t).1 h) hl
        · rfl
      simp [hr, hl, hle]

/-- The contradictions list of computeValidation, characterised by the
spec-side condition. -/
lemma contradictions_characterisation (lookupSlug : String → Option String)
    (axes : Axes) (tags : TagMap) (evidence : List EvidenceRec) (assets : Assets) :
    (computeValidation lookupSlug axes tags evidence assets).contradictions
      = if ConsentConflict lookupSlug axes tags then [consentMismatch] else [] := by
  show contradictionsOf lookupSlug axes tags = _
  unfold contradictionsOf consentMismatch
  cases hc : axes.consentMode with
  | none => simp [ConsentConflict, hc]
  | some cid =>
    simp only
    cases hs : lookupSlug cid with
    | none =>
      have : ¬ ConsentConflict lookupSlug axes tags := by
        rintro ⟨c, hcm, ⟨s, hls, _⟩, _⟩
        rw [hc] at hcm; cases hcm
        rw [hs] at hls; cases hls
      simp [hc, hs, this]
    | some s =>
      by_cases hin : s ∈ consentConflictSlugs
      · by_cases hnc : ∃ t ∈ (tags.get "content_warning").getD [], t.slug ∈ nonConSlugs
        · have hcc : ConsentConflict lookupSlug axes tags := ⟨cid, hc, ⟨s, hs, hin⟩, hnc⟩
          simp only [hc, hs, if_pos hcc]
          simp
          exact ⟨hin, hnc⟩
        · have hncc : ¬ ConsentConflict lookupSlug axes tags := by
            rintro ⟨c, hcm, _, hex⟩
            rw [hc] at hcm; cases hcm
            exact hnc hex
          simp only [hc, hs, if_neg hncc]
          simp
          intro _ t ht hmem
          exact hnc ⟨t, ht, hmem⟩
      · have hncc : ¬ ConsentConflict lookupSlug axes tags := by
          rintro ⟨c, hcm, ⟨s', hls, hin'⟩, _⟩
          rw [hc] at hcm; cases hcm
          rw [hs] at hls; cases hls
          exact hin hin'
        simp only [hc, hs, if_neg hncc]
        simp
        intro h
        exact absurd h hin

/-- Spec-side list of offending tags: flagged requires_evidence and lacking
any evidence record whose links include the tag id. -/
def offendingTags (tags : TagMap) (evidence : List EvidenceRec) : List Tag :=
  tags.allTags.filter (fun t => decide (t.requiresEvidence = true ∧ LacksEvidence evidence t))

lemma tagsWithoutEvidenceOf_eq_offendingTags (tags : TagMap) (evidence : List EvidenceRec) :
    tagsWithoutEvidenceOf tags evidence = offendingTags tags evidence := by
  unfold tagsWithoutEvidenceOf highStakesTagsOf
  rw [List.filter_filter]
  exact lacks_filter_eq evidence tags.allTags

lemma offending_nonempty_iff (tags : TagMap) (evidence : List EvidenceRec) :
    0 < (offendingTags tags evidence).length
      ↔ ∃ t ∈ tags.allTags, t.requiresEvidence = true ∧ LacksEvidence evidence t := by
  rw [List.length_pos_iff_exists_mem]
  constructor
  · rintro ⟨t, ht⟩
    have := List.mem_filter.1 ht
    exact ⟨t, this.1, of_decide_eq_true this.2⟩
  · rintro ⟨t, ht, hp⟩
    exact ⟨t, List.mem_filter.2 ⟨ht, decide_eq_true hp⟩⟩

lemma highStakes_nonempty_iff (tags : TagMap) :
    0 < (highStakesTagsOf tags).length ↔ ∃ t ∈ tags.allTags, t.requiresEvidence = true := by
  rw [List.length_pos_iff_exists_mem]
  constructor
  · rintro ⟨t, ht⟩
    have := List.mem_filter.1 ht
    exact ⟨t, this.1, this.2⟩
  · rintro ⟨t, ht, hp⟩
    exact ⟨t, List.mem_filter.2 ⟨ht, hp⟩⟩

lemma gates_filter_evidence (l : String → Option String) (axes : Axes) (tags : TagMap)
    (evidence : List EvidenceRec) (assets : Assets) :
    (computeValidation l axes tags evidence assets).gates.filter (fun g => g.id == "REQ_EVIDENCE")
      = evidenceGatesOf tags evidence := by
  show (gatesOf axes tags evidence assets).filter _ = _
  unfold gatesOf
  rw [List.filter_append]
  have h2 : [axesGate axes, coverGate assets].filter (fun g => g.id == "REQ_EVIDENCE") = [] := by
    simp [axesGate, coverGate]
  rw [h2, List.nil_append]
  unfold evidenceGatesOf
  by_cases hw : 0 < (tagsWithoutEvidenceOf tags evidence).length
  · simp [hw]
  · by_cases hh : 0 < (highStakesTagsOf tags).length
    · simp [hw, hh]
    · simp [hw, hh]

/-- **C3** (corrected).  The REQ_EVIDENCE entries of the gates list: when some
requires-evidence tag lacks linked evidence the gate is reported failing and
lists the offending tag names; when all requires-evidence tags have evidence
the gate is reported passing; when there are no requires-evidence tags at all,
no REQ_EVIDENCE gate is emitted. -/
theorem C3_evidence_gate (l : String → Option String) (axes : Axes) (tags : TagMap)
    (evidence : List EvidenceRec) (assets : Assets) :
    (computeValidation l axes tags evidence assets).gates.filter (fun g => g.id == "REQ_EVIDENCE")
      = if ∃ t ∈ tags.allTags, t.requiresEvidence = true ∧ LacksEvidence evidence t then
          [{ id := "REQ_EVIDENCE", ok := false,
             missing := some ((offendingTags tags evidence).map (fun t => t.name)) }]
        else if ∃ t ∈ tags.allTags, t.requiresEvidence = true then
          [{ id := "REQ_EVIDENCE", ok := true, missing := none }]
        else [] := by
  rw [gates_filter_evidence]
  unfold evidenceGatesOf
  by_cases h1 : ∃ t ∈ tags.allTags, t.requiresEvidence = true ∧ LacksEvidence evidence t
  · have hw : 0 < (tagsWithoutEvidenceOf tags evidence).length := by
      rw [tagsWithoutEvidenceOf_eq_offendingTags]
      exact (offending_nonempty_iff tags evidence).2 h1
    rw [if_pos (show (tagsWithoutEvidenceOf tags evidence).length > 0 from hw), if_pos h1,
      tagsWithoutEvidenceOf_eq_offendingTags]
  · have hw : ¬ ((tagsWithoutEvidenceOf tags evidence).length > 0) := by
      rw [tagsWithoutEvidenceOf_eq_offendingTags]
      intro h
      exact h1 ((offending_nonempty_iff tags evidence).1 (by omega))
    rw [if_neg hw, if_neg h1]
    by_cases h2 : ∃ t ∈ tags.allTags, t.requiresEvidence = true
    · have hh : (highStakesTagsOf tags).length > 0 := by
        have := (highStakes_nonempty_iff tags).2 h2
        omega
      rw [if_pos hh, if_pos h2]
    · have hh : ¬ ((highStakesTagsOf tags).length > 0) := by
        intro h
        exact h2 ((highStakes_nonempty_iff tags).1 (by omega))
      rw [if_neg hh, if_neg h2]

/-- **C3** counterexample.  On a book with no tags at all (no requires-evidence
tags), the claim asserts the REQUIRED_EVIDENCE gate is reported (and passes);
the code emits no REQ_EVIDENCE gate whatsoever. -/
theorem C3_counterexample :
    ((computeValidation (fun _ => none) ⟨none, none, none, none, none⟩
      ([] : TagMap) [] ⟨none⟩).gates.any (fun g => g.id == "REQ_EVIDENCE")) = false := by
  decide

/-- **C4** (confirmed).  Exactly one hard contradiction CONSENT_WARNING_MISMATCH
with the shipped message is raised iff the consent-mode tag's slug is
clear-explicit/negotiated and a non-consent style content-warning tag is
attached; otherwise the contradictions list is empty. -/
theorem C4_consent_contradiction (l : String → Option String) (axes : Axes)
    (tags : TagMap) (evidence : List EvidenceRec) (assets : Assets) :
    (ConsentConflict l axes tags →
      (computeValidation l axes tags evidence assets).contradictions = [consentMismatch])
    ∧ (¬ ConsentConflict l axes tags →
      (computeValidation l axes tags evidence assets).contradictions = []) := by
  constructor
  · intro h
    rw [contradictions_characterisation, if_pos h]
  · intro h
    rw [contradictions_characterisation, if_neg h]

/-- Concrete non-consent content-warning tag used in witnesses. -/
def cwNonConsentTag : Tag :=
  { id := "t-nc", category := "content_warning", slug := "non-consent",
    name := "Non-Consent", requiresEvidence := false }

/-- Concrete axes with only the consent mode set. -/
def consentAxesEx : Axes := ⟨none, none, none, none, some "tag-consent"⟩

/-- Concrete tag map carrying the non-consent warning. -/
def cwTagMapEx : TagMap := [("content_warning", [cwNonConsentTag])]

/-- **C4** witness: with consent slug clear-explicit and the non-consent
warning attached, exactly the one hard contradiction is raised. -/
theorem C4_witness :
    ConsentConflict (fun _ => some "clear-explicit") consentAxesEx cwTagMapEx
    ∧ (computeValidation (fun _ => some "clear-explicit") consentAxesEx cwTagMapEx
        [] ⟨none⟩).contradictions = [consentMismatch] := by
  have hc : ConsentConflict (fun _ => some "clear-explicit") consentAxesEx cwTagMapEx := by
    refine ⟨"tag-consent", rfl, ⟨"clear-explicit", rfl, by simp [consentConflictSlugs]⟩, ?_⟩
    refine ⟨cwNonConsentTag, ?_, by simp [cwNonConsentTag, nonConSlugs]⟩
    simp [cwTagMapEx, TagMap.get]
  exact ⟨hc, (C4_consent_contradiction _ _ _ [] ⟨none⟩).1 hc⟩

/-- **C8** counterexample.  computeValidation is not a function of
(axes, tags, evidence, assets) alone: with identical arguments but a different
tags table (the consent tag's slug differing), the results differ. -/
theorem C8_counterexample :
    computeValidation (fun _ => some "clear-explicit") consentAxesEx cwTagMapEx [] ⟨none⟩
      ≠ computeValidation (fun _ => some "reluctant") consentAxesEx cwTagMapEx [] ⟨none⟩ := by
  decide

/-- **C8** (amended).  The validation engine is deterministic in its supplied
inputs plus the single external read it performs (the tags-table slug of the
consent-mode axis tag): two slug lookups agreeing on the consent-mode tag id
give identical results.  It never fails: every invocation returns a structured
result carrying the REQ_AXES and REQ_COVER gates and one cap report per capped
category. -/
theorem C8_pure_modulo_consent_slug (l1 l2 : String → Option String) (axes : Axes)
    (tags : TagMap) (evidence : List EvidenceRec) (assets : Assets) :
    ((∀ cid, axes.consentMode = some cid → l1 cid = l2 cid) →
      computeValidation l1 axes tags evidence assets
        = computeValidation l2 axes tags evidence assets)
    ∧ (∃ g ∈ (computeValidation l1 axes tags evidence assets).gates, g.id = "REQ_AXES")
    ∧ (∃ g ∈ (computeValidation l1 axes tags evidence assets).gates, g.id = "REQ_COVER")
    ∧ (computeValidation l1 axes tags evidence assets).caps.map
        (fun c => (c.category, c.max)) = CATEGORY_CAPS := by
  refine ⟨?_, ?_, ?_, ?_⟩
  · intro h
    have hc : contradictionsOf l1 axes tags = contradictionsOf l2 axes tags := by
      unfold contradictionsOf
      cases hm : axes.consentMode with
      | none => rfl
      | some cid => simp only [h cid hm]
    unfold computeValidation
    rw [hc]
  · exact ⟨axesGate axes, by simp [computeValidation, gatesOf], rfl⟩
  · exact ⟨coverGate assets, by simp [computeValidation, gatesOf, coverGate], rfl⟩
  · show (capsOf tags).map _ = _
    simp [capsOf, List.map_map, Function.comp_def]

/-- **C8** witness: the determinism implication applied to two lookups that
agree on the (absent) consent-mode id. -/
theorem C8_witness :
    computeValidation (fun _ => some "clear-explicit") ⟨none, none, none, none, none⟩
        ([] : TagMap) [] ⟨none⟩
      = computeValidation (fun _ => some "reluctant") ⟨none, none, none, none, none⟩
        ([] : TagMap) [] ⟨none⟩ :=
  (C8_pure_modulo_consent_slug _ _ ⟨none, none, none, none, none⟩ [] [] ⟨none⟩).1
    (fun cid h => by cases h)

/-! ### Tag assignment and cap enforcement (add-tag endpoint, admin.ts 1898-1967) -/

/-- A tags-table row joined with its category's single_select flag, as
selected by the add-tag endpoint. -/
structure TagInfo where
  id : String
  category : String
  name : String
  singleSelect : Bool
deriving DecidableEq, Repr

/-- The cap table declared inline in the add-tag endpoint (CAPS). -/
def CAPS : List (String × Nat) :=
  [("trope", 8), ("plot_engine", 2), ("setting_wrapper", 2), ("seasonal_wrapper", 1)]

/-- `CAPS[category]` (undefined = `none`). -/
def capOfCategory (category : String) : Option Nat :=
  (CAPS.find? (fun p => p.1 == category)).map (fun p => p.2)

/-- Result of the add-tag endpoint. -/
inductive AddTagResult where
  | notFound
  | capExceeded (category : String) (cap : Nat)
  | ok (id : String) (category : String) (name : String)
deriving DecidableEq, Repr

/-- `SELECT ... FROM tags ... WHERE t.id = tag_id` (tag ids are primary-key
unique, so the first match is the row). -/
def lookupTag (tagsTable : List TagInfo) (tagId : String) : Option TagInfo :=
  tagsTable.find? (fun t => t.id == tagId)

/-- Whether an attached tag id belongs (via the tags table) to `category`:
the join/subquery condition used by both the cap count and the
single-select delete. -/
def tagIdInCategory (tagsTable : List TagInfo) (category : String) (tid : String) : Bool :=
  tagsTable.any (fun t => t.id == tid && t.category == category)

/-- `SELECT COUNT(*) FROM book_tags JOIN tags ... WHERE category = ...`. -/
def categoryCount (tagsTable : List TagInfo) (bookTags : List String)
    (category : String) : Nat :=
  (bookTags.filter (tagIdInCategory tagsTable category)).length

/-- The add-tag endpoint: cap check against the current category count, then
single-select replace (delete all tags of the category), then idempotent
insert (`ON CONFLICT DO NOTHING`).  `bookTags` is the book's list of attached
tag ids. -/
def addTag (tagsTable : List TagInfo) (bookTags : List String) (tagId : String) :
    AddTagResult × List String :=
  match lookupTag tagsTable tagId with
  | none => (.notFound, bookTags)
  | some tag =>
    let capCheck : Option (AddTagResult × List String) :=
      match capOfCategory tag.category with
      | some cap =>
        if categoryCount tagsTable bookTags tag.category ≥ cap then
          some (.capExceeded tag.category cap, bookTags)
        else none
      | none => none
    match capCheck with
    | some r => r
    | none =>
      let afterDelete :=
        if tag.singleSelect then
          bookTags.filter (fun tid => !tagIdInCategory tagsTable tag.category tid)
        else bookTags
      let afterInsert :=
        if afterDelete.contains tagId then afterDelete else afterDelete ++ [tagId]
      (.ok tag.id tag.category tag.name, afterInsert)

/-- **C5** (amended).  Cap enforcement at tag-add time: if the tag's category
has a declared cap and the book already holds at least `cap` tags of that
category the add is rejected naming the category and cap (leaving the book's
tags unchanged) — this also rejects re-adding an already-attached tag when the
category sits at its cap; below the cap the add succeeds; re-adding an
already-attached tag of a multi-select category — below its cap or in an
uncapped category — is a no-op; for a single-select category (passing the cap
check) the add deletes every tag of the category and inserts the added one. -/
theorem C5_cap_enforcement (tagsTable : List TagInfo) (bookTags : List String)
    (tagId : String) (tag : TagInfo) (cap : Nat) :
    (lookupTag tagsTable tagId = some tag → capOfCategory tag.category = some cap →
      cap ≤ categoryCount tagsTable bookTags tag.category →
      addTag tagsTable bookTags tagId = (.capExceeded tag.category cap, bookTags))
    ∧ (lookupTag tagsTable tagId = some tag → capOfCategory tag.category = some cap →
      categoryCount tagsTable bookTags tag.category < cap →
      (addTag tagsTable bookTags tagId).1 = .ok tag.id tag.category tag.name)
    ∧ (lookupTag tagsTable tagId = some tag → capOfCategory tag.category = some cap →
      categoryCount tagsTable bookTags tag.category < cap →
      tag.singleSelect = false → tagId ∈ bookTags →
      addTag tagsTable bookTags tagId = (.ok tag.id tag.category tag.name, bookTags))
    ∧ (lookupTag tagsTable tagId = some tag → capOfCategory tag.category = none →
      tag.singleSelect = false → tagId ∈ bookTags →
      addTag tagsTable bookTags tagId = (.ok tag.id tag.category tag.name, bookTags))
    ∧ (lookupTag tagsTable tagId = some tag → capOfCategory tag.category = none →
      tag.singleSelect = true →
      addTag tagsTable bookTags tagId
        = (.ok tag.id tag.category tag.name,
           bookTags.filter (fun tid => !tagIdInCategory tagsTable tag.category tid)
             ++ [tagId]))
    ∧ (lookupTag tagsTable tagId = some tag → capOfCategory tag.category = some cap →
      categoryCount tagsTable bookTags tag.category < cap →
      tag.singleSelect = true →
      addTag tagsTable bookTags tagId
        = (.ok tag.id tag.category tag.name,
           bookTags.filter (fun tid => !tagIdInCategory tagsTable tag.category tid)
             ++ [tagId])) := by
  have hinsert : ∀ (h : lookupTag tagsTable tagId = some tag),
      tagIdInCategory tagsTable tag.category tagId = true := by
    intro h
    have hmem := List.mem_of_find?_eq_some h
    have hpred := List.find?_some h
    unfold tagIdInCategory
    rw [List.any_eq_true]
    exact ⟨tag, hmem, by rw [Bool.and_eq_true]; exact ⟨hpred, by simp⟩⟩
  have hssCase : ∀ (h : lookupTag tagsTable tagId = some tag),
      (if (bookTags.filter (fun tid => !tagIdInCategory tagsTable tag.category tid)).contains
          tagId then
        bookTags.filter (fun tid => !tagIdInCategory tagsTable tag.category tid)
      else
        bookTags.filter (fun tid => !tagIdInCategory tagsTable tag.category tid) ++ [tagId])
      = bookTags.filter (fun tid => !tagIdInCategory tagsTable tag.category tid) ++ [tagId] := by
    intro h
    rw [if_neg]
    intro hcont
    have hmem' : tagId ∈ bookTags.filter
        (fun tid => !tagIdInCategory tagsTable tag.category tid) := by
      simpa using hcont
    have hpred := (List.mem_filter.1 hmem').2
    rw [hinsert h] at hpred
    simp at hpred
  refine ⟨?_, ?_, ?_, ?_, ?_, ?_⟩
  · intro hfind hcap hge
    unfold addTag
    rw [hfind]
    simp only [hcap]
    rw [if_pos (by omega : categoryCount tagsTable bookTags tag.category ≥ cap)]
  · intro hfind hcap hlt
    unfold addTag
    rw [hfind]
    simp only [hcap]
    rw [if_neg (by omega : ¬ categoryCount tagsTable bookTags tag.category ≥ cap)]
  · intro hfind hcap hlt hss hmem
    unfold addTag
    rw [hfind]
    simp only [hcap, hss]
    rw [if_neg (by omega : ¬ categoryCount tagsTable bookTags tag.category ≥ cap)]
    have hcont : bookTags.contains tagId = true := by simpa using hmem
    simp [hcont]
    exact hmem
  · intro hfind hcap hss hmem
    unfold addTag
    rw [hfind]
    simp only [hcap, hss]
    have hcont : bookTags.contains tagId = true := by simpa using hmem
    simp [hcont]
    exact hmem
  · intro hfind hcap hss
    unfold addTag
    rw [hfind]
    simp only [hcap, hss]
    rw [if_pos trivial]
    rw [hssCase hfind]
  · intro hfind hcap hlt hss
    unfold addTag
    rw [hfind]
    simp only [hcap, hss]
    rw [if_neg (by omega : ¬ categoryCount tagsTable bookTags tag.category ≥ cap)]
    rw [if_pos trivial]
    rw [hssCase hfind]

/-- Nine trope rows of the tags table used in the C5 scenario. -/
def tropeTableEx : List TagInfo :=
  [⟨"t1", "trope", "T1", false⟩, ⟨"t2", "trope", "T2", false⟩,
   ⟨"t3", "trope", "T3", false⟩, ⟨"t4", "trope", "T4", false⟩,
   ⟨"t5", "trope", "T5", false⟩, ⟨"t6", "trope", "T6", false⟩,
   ⟨"t7", "trope", "T7", false⟩, ⟨"t8", "trope", "T8", false⟩,
   ⟨"t9", "trope", "T9", false⟩]

/-- A book already holding eight trope tags. -/
def eightTropesEx : List String := ["t1", "t2", "t3", "t4", "t5", "t6", "t7", "t8"]

/-- A book holding seven trope tags. -/
def sevenTropesEx : List String := ["t1", "t2", "t3", "t4", "t5", "t6", "t7"]

/-- **C5** counterexample.  Re-adding tag t1, which the book already carries,
when the trope category sits at its cap of 8, is rejected with the
cap-exceeded error — not the no-op the claim promises for duplicate adds. -/
theorem C5_counterexample :
    "t1" ∈ eightTropesEx
    ∧ addTag tropeTableEx eightTropesEx "t1"
        = (.capExceeded "trope" 8, eightTropesEx) := by
  constructor
  · decide
  · decide

/-- An uncapped multi-select row and a single-select category pair. -/
def mixedTableEx : List TagInfo :=
  [⟨"cw1", "content_warning", "CW1", false⟩,
   ⟨"hl1", "heat_level", "HL1", true⟩,
   ⟨"hl2", "heat_level", "HL2", true⟩]

/-- **C5** witness: the 8th trope add succeeds; the 9th is rejected naming
"trope" and cap 8; a duplicate add below the cap is a no-op; a duplicate add
in an uncapped category is a no-op; a single-select add replaces the
category's tags. -/
theorem C5_witness :
    (addTag tropeTableEx eightTropesEx "t9" = (.capExceeded "trope" 8, eightTropesEx))
    ∧ ((addTag tropeTableEx sevenTropesEx "t8").1 = .ok "t8" "trope" "T8")
    ∧ (addTag tropeTableEx sevenTropesEx "t7" = (.ok "t7" "trope" "T7", sevenTropesEx))
    ∧ (addTag mixedTableEx ["cw1"] "cw1" = (.ok "cw1" "content_warning" "CW1", ["cw1"]))
    ∧ (addTag mixedTableEx ["hl1", "cw1"] "hl2"
        = (.ok "hl2" "heat_level" "HL2",
           ["hl1", "cw1"].filter (fun tid => !tagIdInCategory mixedTableEx "heat_level" tid)
             ++ ["hl2"])) := by
  refine ⟨?_, ?_, ?_, ?_, ?_⟩
  · exact (C5_cap_enforcement tropeTableEx eightTropesEx "t9" ⟨"t9", "trope", "T9", false⟩ 8).1
      (by decide) (by decide) (by decide)
  · exact (C5_cap_enforcement tropeTableEx sevenTropesEx "t8" ⟨"t8", "trope", "T8", false⟩ 8).2.1
      (by decide) (by decide) (by decide)
  · exact (C5_cap_enforcement tropeTableEx sevenTropesEx "t7" ⟨"t7", "trope", "T7", false⟩ 8).2.2.1
      (by decide) (by decide) (by decide) (by decide) (by decide)
  · exact (C5_cap_enforcement mixedTableEx ["cw1"] "cw1"
      ⟨"cw1", "content_warning", "CW1", false⟩ 0).2.2.2.1
      (by decide) (by decide) (by decide) (by decide)
  · exact (C5_cap_enforcement mixedTableEx ["hl1", "cw1"] "hl2"
      ⟨"hl2", "heat_level", "HL2", true⟩ 0).2.2.2.2.1
      (by decide) (by decide) (by decide)

/-! ### Publication engine (publish endpoint, admin.ts 2527-2738) -/

/-- The part of a publication's snapshot_json that the diff later reads back:
the tag map, the evidence rows, and the ready cover's version
(`assets.cover?.version`, `none` when no ready cover was recorded). -/
structure Snapshot where
  tags : TagMap
  evidence : List EvidenceRec
  coverVersion : Option Nat
deriving DecidableEq, Repr

/-- The commit-path diff summary (diff_summary_json): per-kind counts plus the
cover and overall change flags. -/
structure DiffSummary where
  tags_added : Nat
  tags_removed : Nat
  evidence_added : Nat
  evidence_removed : Nat
  cover_changed : Bool
  has_changes : Bool
deriving DecidableEq, Repr

/-- `curr.filter(id => !prev.includes(id))` — the id-set difference used for
every added/removed list of the diff. -/
def addedIds (curr prev : List String) : List String :=
  curr.filter (fun i => !prev.contains i)

/-- `Object.values(tags).flat().map(t => t.id)`. -/
def tagIdsOf (m : TagMap) : List String := m.allTags.map (fun t => t.id)

/-- The cover-change test `(assetRows[0]?.version || 0) !== (prev...version || 0)`. -/
def coverChangedOf (currV prevV : Option Nat) : Bool := currV.getD 0 != prevV.getD 0

/-- The diff summary computed at commit time against the previous snapshot. -/
def mkDiffSummary (currTags : TagMap) (currEvidence : List EvidenceRec)
    (currCoverV : Option Nat) (prev : Snapshot) : DiffSummary :=
  let prevTagIds := tagIdsOf prev.tags
  let currTagIds := tagIdsOf currTags
  let addedTags := addedIds currTagIds prevTagIds
  let removedTags := addedIds prevTagIds currTagIds
  let prevEv := prev.evidence.map (fun e => e.id)
  let currEv := currEvidence.map (fun e => e.id)
  let addedEvidence := addedIds currEv prevEv
  let removedEvidence := addedIds prevEv currEv
  let coverChanged := coverChangedOf currCoverV prev.coverVersion
  { tags_added := addedTags.length
    tags_removed := removedTags.length
    evidence_added := addedEvidence.length
    evidence_removed := removedEvidence.length
    cover_changed := coverChanged
    has_changes := decide (addedTags.length > 0) || decide (removedTags.length > 0)
      || decide (addedEvidence.length > 0) || decide (removedEvidence.length > 0)
      || coverChanged }

/-- The generic row-level id-membership difference the preview endpoint uses:
`curr.filter(x => !prevIds.has(x.id))` with `prevIds` the id set of the
baseline rows. -/
def addedRows {α : Type} (idOf : α → String) (curr prev : List α) : List α :=
  curr.filter (fun x => !(prev.map idOf).contains (idOf x))

/-- The preview endpoint's `changes` object (admin.ts 2472-2508): the
added/removed tag and evidence rows, the cover flag and the overall flag.
(The endpoint then projects the rows to {id, name, category} / preview
objects; the rows are kept whole here.) -/
structure PreviewChanges where
  addedTags : List Tag
  removedTags : List Tag
  addedEvidence : List EvidenceRec
  removedEvidence : List EvidenceRec
  coverChanged : Bool
  hasChanges : Bool
deriving DecidableEq, Repr

/-- The preview diff against a baseline snapshot. -/
def previewChanges (currTags : TagMap) (currEvidence : List EvidenceRec)
    (currCoverV : Option Nat) (prev : Snapshot) : PreviewChanges :=
  let prevTags := prev.tags.allTags
  let currFlat := currTags.allTags
  let addedTags := addedRows (fun t => t.id) currFlat prevTags
  let removedTags := addedRows (fun t => t.id) prevTags currFlat
  let addedEvidence := addedRows (fun e => e.id) currEvidence prev.evidence
  let removedEvidence := addedRows (fun e => e.id) prev.evidence currEvidence
  let coverChanged := coverChangedOf currCoverV prev.coverVersion
  ⟨addedTags, removedTags, addedEvidence, removedEvidence, coverChanged,
   decide (addedTags.length > 0) || decide (removedTags.length > 0)
     || decide (addedEvidence.length > 0) || decide (removedEvidence.length > 0)
     || coverChanged⟩

/-- A book_publications row (the columns the claims touch). -/
structure Publication where
  id : String
  previousPublicationId : Option String
  diffSummary : Option DiffSummary
  snapshot : Snapshot
deriving DecidableEq, Repr

/-- The state of one book as the publish endpoint reads and writes it.
`publications` is ordered most recent first (the endpoint reads the head,
`ORDER BY published_at DESC LIMIT 1`); `readyCoverVersion` is the version of
the newest ready cover asset, if any. -/
structure PubBookState where
  status : String
  axes : Axes
  tags : TagMap
  evidence : List EvidenceRec
  readyCoverVersion : Option Nat
  publications : List Publication
deriving DecidableEq, Repr

/-- The preview endpoint's diff (admin.ts 2460-2509): against the most recent
publication's snapshot when one exists, otherwise null. -/
def previewDiff (st : PubBookState) : Option PreviewChanges :=
  (st.publications.head?).map
    (fun p => previewChanges st.tags st.evidence st.readyCoverVersion p.snapshot)

/-- Result of the publish endpoint. -/
inductive PublishResult where
  | rejectedGates (failed : List Gate)
  | rejectedContradictions (hard : List Contradiction)
  | noActiveTaxonomy
  | stateChanged (which : String)
  | success (publicationId : String) (isFirstPublish : Bool)
      (diffSummary : Option DiffSummary)
deriving DecidableEq, Repr

/-- The in-transaction axes re-check: all five axis columns non-null. -/
def allAxesSet (a : Axes) : Bool :=
  a.worldFramework.isSome && a.pairing.isSome && a.heatLevel.isSome
    && a.seriesStatus.isSome && a.consentMode.isSome

/-- The `{ cover: assetRows[0] }` argument handed to computeValidation: the
rows are pre-filtered on state = 'ready'. -/
def assetsOf (coverVersion : Option Nat) : Assets :=
  ⟨coverVersion.map (fun v => ⟨"ready", v⟩)⟩

/-- The tag rows the publish endpoint feeds computeValidation: its query
(admin.ts 2543-2547) selects `t.requires_evidence` WITHOUT the camel-case
alias computeValidation reads (`t.requiresEvidence`, admin.ts 62) — unlike
the standalone validation endpoint (admin.ts 2024), which aliases it.  The
`requiresEvidence` property read on these rows is therefore undefined
(false here). -/
def publishValidationTags (tags : TagMap) : TagMap :=
  tags.map (fun p => (p.1, p.2.map (fun t => { t with requiresEvidence := false })))

/-- The evidence rows the publish endpoint feeds computeValidation: its query
(`SELECT * FROM evidence`, admin.ts 2548) joins no evidence_links, so the
`links` property read on these rows is undefined (empty here). -/
def publishValidationEvidence (evidence : List EvidenceRec) : List EvidenceRec :=
  evidence.map (fun e => { e with links := [] })

/-- The validation result the publish endpoint computes (over its own,
alias-degraded row shapes). -/
def publishValidation (lookupSlug : String → Option String) (st : PubBookState) :
    ValidationResult :=
  computeValidation lookupSlug st.axes (publishValidationTags st.tags)
    (publishValidationEvidence st.evidence) (assetsOf st.readyCoverVersion)

/-- `validation.gates.filter(g => !g.ok)` over the publish endpoint's inputs. -/
def failedGatesOf (lookupSlug : String → Option String) (st : PubBookState) : List Gate :=
  (publishValidation lookupSlug st).gates.filter (fun g => !g.ok)

/-- `validation.contradictions.filter(c => c.severity === 'hard')`. -/
def hardContradictionsOf (lookupSlug : String → Option String) (st : PubBookState) :
    List Contradiction :=
  (publishValidation lookupSlug st).contradictions.filter (fun c => c.severity == "hard")

/-- The transaction's writes: insert the snapshot row, set the book's status
to published. -/
def publishedState (txn : PubBookState) (newPub : Publication) : PubBookState :=
  { txn with status := "published", publications := newPub :: txn.publications }

/-- The publish endpoint.  The pre-transaction reads (validation, previous
publication, snapshot, diff) run against `pre`; the in-transaction re-check
and writes run against `txn` — a possibly different state, reflecting
concurrent edits between the pre-check reads and the transaction. -/
def publish (lookupSlug : String → Option String) (taxonomyActive : Bool)
    (freshPubId : String) (pre txn : PubBookState) : PublishResult × PubBookState :=
  let failedGates := failedGatesOf lookupSlug pre
  if failedGates.length > 0 then (.rejectedGates failedGates, txn)
  else
    let hard := hardContradictionsOf lookupSlug pre
    if hard.length > 0 then (.rejectedContradictions hard, txn)
    else if taxonomyActive = false then (.noActiveTaxonomy, txn)
    else
      let previousPublication := pre.publications.head?
      let snapshot : Snapshot := ⟨pre.tags, pre.evidence, pre.readyCoverVersion⟩
      let diffSummary := previousPublication.map
        (fun p => mkDiffSummary pre.tags pre.evidence pre.readyCoverVersion p.snapshot)
      let isFirstPublish := previousPublication.isNone
      -- atomic publish transaction: re-check, insert snapshot, update status
      if allAxesSet txn.axes = false then (.stateChanged "MISSING_AXES", txn)
      else if txn.readyCoverVersion = none then (.stateChanged "MISSING_COVER", txn)
      else
        let newPub : Publication :=
          ⟨freshPubId, previousPublication.map (fun p => p.id), diffSummary, snapshot⟩
        (.success freshPubId isFirstPublish diffSummary, publishedState txn newPub)

/-- Everything the success branch of publish determines. -/
lemma publish_success_characterisation (lookupSlug : String → Option String)
    (taxonomyActive : Bool) (freshPubId : String) (pre txn : PubBookState)
    (pid : String) (fst : Bool) (ds : Option DiffSummary) (st' : PubBookState)
    (h : publish lookupSlug taxonomyActive freshPubId pre txn
          = (.success pid fst ds, st')) :
    pid = freshPubId
    ∧ fst = (pre.publications.head?).isNone
    ∧ ds = (pre.publications.head?).map
        (fun p => mkDiffSummary pre.tags pre.evidence pre.readyCoverVersion p.snapshot)
    ∧ st' = publishedState txn
        ⟨freshPubId, (pre.publications.head?).map (fun p => p.id), ds,
          ⟨pre.tags, pre.evidence, pre.readyCoverVersion⟩⟩ := by
  simp only [publish] at h
  by_cases hA : (failedGatesOf lookupSlug pre).length > 0
  · rw [if_pos hA] at h
    simp at h
  · rw [if_neg hA] at h
    by_cases hB : (hardContradictionsOf lookupSlug pre).length > 0
    · rw [if_pos hB] at h
      simp at h
    · rw [if_neg hB] at h
      by_cases hT : taxonomyActive = false
      · rw [if_pos hT] at h
        simp at h
      · rw [if_neg hT] at h
        by_cases hX : allAxesSet txn.axes = false
        · rw [if_pos hX] at h
          simp at h
        · rw [if_neg hX] at h
          by_cases hC : txn.readyCoverVersion = none
          · rw [if_pos hC] at h
            simp at h
          · rw [if_neg hC] at h
            simp only [Prod.mk.injEq, PublishResult.success.injEq] at h
            obtain ⟨⟨h1, h2, h3⟩, h4⟩ := h
            subst h1
            subst h2
            subst h3
            subst h4
            exact ⟨rfl, rfl, rfl, rfl⟩

/-- The branch structure of the publish endpoint: a failing pre-check
(failing gates, else hard contradictions) returns a structured rejection
naming them and leaves the state untouched; a failing in-transaction re-check
aborts with a distinct state-changed error and writes nothing; when the
pre-check, taxonomy and re-check all pass, publish appends exactly one
publication row and sets the status to published.  (The pre-check runs over
the endpoint's alias-degraded inputs: see publishValidationTags.) -/
lemma publish_guard_cases (lookupSlug : String → Option String) (taxonomyActive : Bool)
    (freshPubId : String) (pre txn : PubBookState) :
    (failedGatesOf lookupSlug pre ≠ [] →
      publish lookupSlug taxonomyActive freshPubId pre txn
        = (.rejectedGates (failedGatesOf lookupSlug pre), txn))
    ∧ (failedGatesOf lookupSlug pre = [] → hardContradictionsOf lookupSlug pre ≠ [] →
      publish lookupSlug taxonomyActive freshPubId pre txn
        = (.rejectedContradictions (hardContradictionsOf lookupSlug pre), txn))
    ∧ (failedGatesOf lookupSlug pre = [] → hardContradictionsOf lookupSlug pre = [] →
      taxonomyActive = true →
      (allAxesSet txn.axes = false ∨ txn.readyCoverVersion = none) →
      ∃ w, publish lookupSlug taxonomyActive freshPubId pre txn = (.stateChanged w, txn))
    ∧ (failedGatesOf lookupSlug pre = [] → hardContradictionsOf lookupSlug pre = [] →
      taxonomyActive = true → allAxesSet txn.axes = true → txn.readyCoverVersion ≠ none →
      ∃ ds, (publish lookupSlug taxonomyActive freshPubId pre txn).1
          = .success freshPubId (pre.publications.head?).isNone ds
        ∧ (publish lookupSlug taxonomyActive freshPubId pre txn).2.publications.length
            = txn.publications.length + 1
        ∧ (publish lookupSlug taxonomyActive freshPubId pre txn).2.status = "published") := by
  refine ⟨?_, ?_, ?_, ?_⟩
  · intro hne
    have hA : (failedGatesOf lookupSlug pre).length > 0 := List.length_pos.2 hne
    simp only [publish]
    rw [if_pos hA]
  · intro hg hne
    have hA : ¬ (failedGatesOf lookupSlug pre).length > 0 := by simp [hg]
    have hB : (hardContradictionsOf lookupSlug pre).length > 0 := List.length_pos.2 hne
    simp only [publish]
    rw [if_neg hA, if_pos hB]
  · intro hg hc ht hbad
    have hA : ¬ (failedGatesOf lookupSlug pre).length > 0 := by simp [hg]
    have hB : ¬ (hardContradictionsOf lookupSlug pre).length > 0 := by simp [hc]
    have hT : ¬ taxonomyActive = false := by simp [ht]
    simp only [publish]
    rw [if_neg hA, if_neg hB, if_neg hT]
    rcases hbad with hX | hC
    · exact ⟨"MISSING_AXES", by rw [if_pos hX]⟩
    · by_cases hX : allAxesSet txn.axes = false
      · exact ⟨"MISSING_AXES", by rw [if_pos hX]⟩
      · exact ⟨"MISSING_COVER", by rw [if_neg hX, if_pos hC]⟩
  · intro hg hc ht hX hC
    have hA : ¬ (failedGatesOf lookupSlug pre).length > 0 := by simp [hg]
    have hB : ¬ (hardContradictionsOf lookupSlug pre).length > 0 := by simp [hc]
    have hT : ¬ taxonomyActive = false := by simp [ht]
    have hX' : ¬ allAxesSet txn.axes = false := by simp [hX]
    simp only [publish]
    rw [if_neg hA, if_neg hB, if_neg hT, if_neg hX', if_neg hC]
    exact ⟨_, rfl, by simp [publishedState], rfl⟩

/-- Axes with all five slots set, used in publish witnesses. -/
def goodAxesEx : Axes := ⟨some "axw", some "axp", some "axh", some "axs", some "axc"⟩

lemma highStakes_publishValidationTags (tags : TagMap) :
    highStakesTagsOf (publishValidationTags tags) = [] := by
  unfold highStakesTagsOf publishValidationTags TagMap.allTags
  induction tags with
  | nil => rfl
  | cons p ps ih =>
    simp only [List.map_cons, List.flatten_cons, List.filter_append]
    rw [ih]
    rw [List.append_nil]
    induction p.2 with
    | nil => rfl
    | cons t ts ih2 =>
      simp [ih2]

/-- The publish endpoint's pre-check can never report an evidence-gate
failure: its tag rows carry no `requiresEvidence` property, so the
high-stakes set is always empty and no REQ_EVIDENCE gate is emitted. -/
lemma publish_precheck_no_evidence_gate (lookupSlug : String → Option String)
    (st : PubBookState) :
    (failedGatesOf lookupSlug st).all (fun g => g.id ≠ "REQ_EVIDENCE") = true := by
  unfold failedGatesOf publishValidation
  have hev : evidenceGatesOf (publishValidationTags st.tags)
      (publishValidationEvidence st.evidence) = [] := by
    unfold evidenceGatesOf tagsWithoutEvidenceOf
    rw [highStakes_publishValidationTags]
    rfl
  show ((gatesOf _ _ _ _).filter _).all _ = true
  unfold gatesOf
  rw [hev, List.append_nil]
  rw [List.all_eq_true]
  intro g hg
  have hmem := (List.mem_filter.1 hg).1
  simp only [List.mem_cons, List.not_mem_nil, or_false] at hmem
  rcases hmem with h | h <;> rw [h] <;> simp [axesGate, coverGate]

/-- A requires-evidence content-warning tag with no evidence attached. -/
def evidenceBugTag : Tag :=
  ⟨"tg-cw", "content_warning", "graphic-violence", "Graphic Violence", true⟩

/-- A book that is publish-ready in every respect except that its
requires-evidence tag has no linked evidence. -/
def preBugEx : PubBookState :=
  ⟨"draft", goodAxesEx, [("content_warning", [evidenceBugTag])], [], some 1, []⟩

/-- **C1** (code_bug).  On the book's true state the Validation Engine
reports the REQ_EVIDENCE gate failing, so the claim (and spec §4.4 step 2)
demands a structured refusal with zero publication rows; but the publish
endpoint's own pre-check — fed tag rows whose requires_evidence column is
selected without the camel-case alias computeValidation reads, and evidence
rows without links — fails no gate, and the publish succeeds, creating a
publication row. -/
theorem C1_publish_bug :
    ((computeValidation (fun _ => none) preBugEx.axes preBugEx.tags preBugEx.evidence
        (assetsOf preBugEx.readyCoverVersion)).gates.any
      (fun g => !g.ok && g.id == "REQ_EVIDENCE")) = true
    ∧ failedGatesOf (fun _ => none) preBugEx = []
    ∧ (publish (fun _ => none) true "p1" preBugEx preBugEx).1 = .success "p1" true none
    ∧ (publish (fun _ => none) true "p1" preBugEx preBugEx).2.publications.length
        = preBugEx.publications.length + 1 := by
  refine ⟨by decide, by decide, by decide, by decide⟩

lemma contains_eq_of_perm {l l' : List String} (h : l.Perm l') (x : String) :
    l.contains x = l'.contains x := by
  by_cases hx : x ∈ l
  · have hx' : x ∈ l' := h.mem_iff.1 hx
    simp [hx, hx']
  · have hx' : x ∉ l' := fun c => hx (h.mem_iff.2 c)
    simp [hx, hx']

lemma map_filter_comm {α : Type} (idOf : α → String) (p : String → Bool) (l : List α) :
    (l.map idOf).filter p = (l.filter (fun x => p (idOf x))).map idOf := by
  induction l with
  | nil => rfl
  | cons a xs ih =>
    cases hp : p (idOf a) with
    | true => simp [List.filter_cons, hp, ih]
    | false => simp [List.filter_cons, hp, ih]

lemma addedIds_map {α : Type} (idOf : α → String) (curr prev : List α) :
    addedIds (curr.map idOf) (prev.map idOf) = (addedRows idOf curr prev).map idOf := by
  unfold addedIds addedRows
  exact map_filter_comm idOf _ curr

/-- The commit-path diff summary agrees field by field with the preview diff
on the same inputs. -/
lemma preview_commit_agree (ct : TagMap) (ce : List EvidenceRec) (cv : Option Nat)
    (prev : Snapshot) :
    (mkDiffSummary ct ce cv prev).tags_added
        = (previewChanges ct ce cv prev).addedTags.length
    ∧ (mkDiffSummary ct ce cv prev).tags_removed
        = (previewChanges ct ce cv prev).removedTags.length
    ∧ (mkDiffSummary ct ce cv prev).evidence_added
        = (previewChanges ct ce cv prev).addedEvidence.length
    ∧ (mkDiffSummary ct ce cv prev).evidence_removed
        = (previewChanges ct ce cv prev).removedEvidence.length
    ∧ (mkDiffSummary ct ce cv prev).cover_changed
        = (previewChanges ct ce cv prev).coverChanged
    ∧ (mkDiffSummary ct ce cv prev).has_changes
        = (previewChanges ct ce cv prev).hasChanges := by
  have h1 := addedIds_map (fun t : Tag => t.id) ct.allTags prev.tags.allTags
  have h2 := addedIds_map (fun t : Tag => t.id) prev.tags.allTags ct.allTags
  have h3 := addedIds_map (fun e : EvidenceRec => e.id) ce prev.evidence
  have h4 := addedIds_map (fun e : EvidenceRec => e.id) prev.evidence ce
  simp only [mkDiffSummary, previewChanges, tagIdsOf]
  simp only [h1, h2, h3, h4, List.length_map]
  exact ⟨trivial, trivial, trivial, trivial, trivial, trivial⟩

/-- **C2** (confirmed).  The diff — at commit and in preview — is id-set
membership based and order-independent: an id/row is added iff present now
and absent in the baseline (removed is the inverse; evidence likewise);
cover changed iff the recorded version numbers differ; has_changes is the OR;
a successful publish links the new row to the prior publication's id, with no
diff on a first publish and the diff computed against the prior snapshot
otherwise; the preview computes a diff exactly when a previous publication
exists and agrees with the commit summary field by field. -/
theorem C2_diff_id_membership :
    (∀ curr prev i, i ∈ addedIds curr prev ↔ i ∈ curr ∧ i ∉ prev)
    ∧ (∀ curr curr' prev prev' : List String, curr.Perm curr' → prev.Perm prev' →
        (addedIds curr prev).Perm (addedIds curr' prev'))
    ∧ (∀ v w : Nat, coverChangedOf (some v) (some w) = true ↔ v ≠ w)
    ∧ (∀ ct ce cv prev, (mkDiffSummary ct ce cv prev).has_changes = true ↔
        (0 < (mkDiffSummary ct ce cv prev).tags_added
          ∨ 0 < (mkDiffSummary ct ce cv prev).tags_removed
          ∨ 0 < (mkDiffSummary ct ce cv prev).evidence_added
          ∨ 0 < (mkDiffSummary ct ce cv prev).evidence_removed
          ∨ (mkDiffSummary ct ce cv prev).cover_changed = true))
    ∧ (∀ (l : String → Option String) (tax : Bool) (fid : String)
        (pre txn : PubBookState) (pid : String) (fst : Bool)
        (ds : Option DiffSummary) (st' : PubBookState),
        publish l tax fid pre txn = (.success pid fst ds, st') →
        ((st'.publications.head?).map (fun p => p.previousPublicationId)
            = some ((pre.publications.head?).map (fun p => p.id)))
        ∧ (pre.publications.head? = none → ds = none)
        ∧ (∀ p, pre.publications.head? = some p →
            ds = some (mkDiffSummary pre.tags pre.evidence pre.readyCoverVersion p.snapshot)))
    ∧ (∀ (α : Type) (idOf : α → String) (curr prev : List α) (x : α),
        x ∈ addedRows idOf curr prev ↔ x ∈ curr ∧ idOf x ∉ prev.map idOf)
    ∧ (∀ (α : Type) (idOf : α → String) (curr curr' prev prev' : List α),
        curr.Perm curr' → prev.Perm prev' →
        (addedRows idOf curr prev).Perm (addedRows idOf curr' prev'))
    ∧ (∀ ct ce cv prev, (previewChanges ct ce cv prev).hasChanges = true ↔
        ((previewChanges ct ce cv prev).addedTags ≠ []
          ∨ (previewChanges ct ce cv prev).removedTags ≠ []
          ∨ (previewChanges ct ce cv prev).addedEvidence ≠ []
          ∨ (previewChanges ct ce cv prev).removedEvidence ≠ []
          ∨ (previewChanges ct ce cv prev).coverChanged = true))
    ∧ (∀ st : PubBookState,
        (st.publications.head? = none → previewDiff st = none)
        ∧ (∀ p, st.publications.head? = some p →
            previewDiff st
              = some (previewChanges st.tags st.evidence st.readyCoverVersion p.snapshot)))
    ∧ (∀ ct ce cv prev,
        (mkDiffSummary ct ce cv prev).tags_added
            = (previewChanges ct ce cv prev).addedTags.length
        ∧ (mkDiffSummary ct ce cv prev).tags_removed
            = (previewChanges ct ce cv prev).removedTags.length
        ∧ (mkDiffSummary ct ce cv prev).evidence_added
            = (previewChanges ct ce cv prev).addedEvidence.length
        ∧ (mkDiffSummary ct ce cv prev).evidence_removed
            = (previewChanges ct ce cv prev).removedEvidence.length
        ∧ (mkDiffSummary ct ce cv prev).cover_changed
            = (previewChanges ct ce cv prev).coverChanged
        ∧ (mkDiffSummary ct ce cv prev).has_changes
            = (previewChanges ct ce cv prev).hasChanges) := by
  refine ⟨?_, ?_, ?_, ?_, ?_, ?_, ?_, ?_, ?_, ?_⟩
  · intro curr prev i
    simp [addedIds, List.mem_filter]
  · intro curr curr' prev prev' hc hp
    have h1 : addedIds curr prev = curr.filter (fun i => !prev'.contains i) := by
      apply List.filter_congr
      intro i _
      rw [contains_eq_of_perm hp]
    rw [h1]
    exact hc.filter _
  · intro v w
    simp [coverChangedOf]
  · intro ct ce cv prev
    simp only [mkDiffSummary, Bool.or_eq_true, decide_eq_true_eq]
    tauto
  · intro l tax fid pre txn pid fst ds st' h
    obtain ⟨h1, h2, h3, h4⟩ := publish_success_characterisation l tax fid pre txn pid fst ds st' h
    subst h4
    refine ⟨by simp [publishedState], ?_, ?_⟩
    · intro hnone
      rw [h3, hnone]
      rfl
    · intro p hp
      rw [h3, hp]
      rfl
  · intro α idOf curr prev x
    simp [addedRows, List.mem_filter]
  · intro α idOf curr curr' prev prev' hc hp
    have h1 : addedRows idOf curr prev
        = curr.filter (fun x => !(prev'.map idOf).contains (idOf x)) := by
      apply List.filter_congr
      intro x _
      rw [contains_eq_of_perm (hp.map idOf)]
    rw [h1]
    exact hc.filter _
  · intro ct ce cv prev
    simp only [previewChanges, Bool.or_eq_true, decide_eq_true_eq, gt_iff_lt,
      List.length_pos]
    tauto
  · intro st
    constructor
    · intro hnone
      unfold previewDiff
      rw [hnone]
      rfl
    · intro p hp
      unfold previewDiff
      rw [hp]
      rfl
  · intro ct ce cv prev
    exact preview_commit_agree ct ce cv prev

/-- Trope tag present only in the baseline snapshot. -/
def tagEnemiesEx : Tag :=
  ⟨"tg-etl", "trope", "enemies-to-lovers", "Enemies to Lovers", false⟩

/-- Trope tag present only in the current state. -/
def tagSlowBurnEx : Tag := ⟨"tg-sb", "trope", "slow-burn", "Slow Burn", false⟩

/-- Baseline snapshot of publication P1: one trope, no evidence, cover v1. -/
def snapP1Ex : Snapshot := ⟨[("trope", [tagEnemiesEx])], [], some 1⟩

/-- Prior publication P1. -/
def pubP1Ex : Publication := ⟨"pub1", none, none, snapP1Ex⟩

/-- Book state at the second publish: slow-burn swapped in for
enemies-to-lovers, same cover version, P1 as baseline. -/
def preRepubEx : PubBookState :=
  ⟨"published", goodAxesEx, [("trope", [tagSlowBurnEx])], [], some 1, [pubP1Ex]⟩

/-- The publication row the second publish inserts. -/
def pubP2Ex : Publication :=
  ⟨"pub2", some "pub1", some ⟨1, 1, 0, 0, false, true⟩,
    ⟨[("trope", [tagSlowBurnEx])], [], some 1⟩⟩

/-- **C2** witness: the republish scenario: one tag added, one removed,
has_changes true, P2 linked to P1; the membership/ordering/cover clauses at
concrete inputs; and the preview diff at the same scenario, agreeing with
the commit summary. -/
theorem C2_witness :
    ("a" ∈ addedIds ["a", "b"] ["b"] ↔ "a" ∈ ["a", "b"] ∧ "a" ∉ ["b"])
    ∧ (addedIds ["a", "b"] ["b"]).Perm (addedIds ["b", "a"] ["b"])
    ∧ (coverChangedOf (some 2) (some 1) = true ↔ (2 : Nat) ≠ 1)
    ∧ ((preRepubEx.publications.head? = some pubP1Ex)
      ∧ ((publishedState preRepubEx pubP2Ex).publications.head?).map
            (fun p => p.previousPublicationId)
          = some ((preRepubEx.publications.head?).map (fun p => p.id))
      ∧ some pubP2Ex.diffSummary
          = some (some (mkDiffSummary preRepubEx.tags preRepubEx.evidence
              preRepubEx.readyCoverVersion pubP1Ex.snapshot)))
    ∧ (tagSlowBurnEx ∈ addedRows (fun t => t.id) [tagSlowBurnEx] [tagEnemiesEx]
        ↔ tagSlowBurnEx ∈ [tagSlowBurnEx]
          ∧ tagSlowBurnEx.id ∉ [tagEnemiesEx].map (fun t => t.id))
    ∧ (addedRows (fun t : Tag => t.id) [tagSlowBurnEx, tagEnemiesEx] [tagEnemiesEx]).Perm
        (addedRows (fun t : Tag => t.id) [tagEnemiesEx, tagSlowBurnEx] [tagEnemiesEx])
    ∧ previewDiff preRepubEx
        = some (previewChanges preRepubEx.tags preRepubEx.evidence
            preRepubEx.readyCoverVersion pubP1Ex.snapshot)
    ∧ (mkDiffSummary preRepubEx.tags preRepubEx.evidence preRepubEx.readyCoverVersion
          pubP1Ex.snapshot).tags_added
        = (previewChanges preRepubEx.tags preRepubEx.evidence preRepubEx.readyCoverVersion
            pubP1Ex.snapshot).addedTags.length := by
  have hpub : publish (fun _ => none) true "pub2" preRepubEx preRepubEx
      = (.success "pub2" false pubP2Ex.diffSummary, publishedState preRepubEx pubP2Ex) := by
    decide
  have hmain := C2_diff_id_membership
  refine ⟨hmain.1 ["a", "b"] ["b"] "a", ?_, hmain.2.2.1 2 1, ?_, ?_, ?_, ?_, ?_⟩
  · exact hmain.2.1 ["a", "b"] ["b", "a"] ["b"] ["b"] (List.Perm.swap "b" "a" []) (List.Perm.refl _)
  · have hres := hmain.2.2.2.2.1 (fun _ => none) true "pub2" preRepubEx preRepubEx
      "pub2" false pubP2Ex.diffSummary (publishedState preRepubEx pubP2Ex) hpub
    exact ⟨rfl, hres.1, congrArg some (hres.2.2 pubP1Ex rfl)⟩
  · exact hmain.2.2.2.2.2.1 Tag (fun t => t.id) [tagSlowBurnEx] [tagEnemiesEx] tagSlowBurnEx
  · exact hmain.2.2.2.2.2.2.1 Tag (fun t => t.id) [tagSlowBurnEx, tagEnemiesEx]
      [tagEnemiesEx, tagSlowBurnEx] [tagEnemiesEx] [tagEnemiesEx]
      (List.Perm.swap tagEnemiesEx tagSlowBurnEx []) (List.Perm.refl _)
  · exact (hmain.2.2.2.2.2.2.2.2.1 preRepubEx).2 pubP1Ex rfl
  · exact (hmain.2.2.2.2.2.2.2.2.2 preRepubEx.tags preRepubEx.evidence
      preRepubEx.readyCoverVersion pubP1Ex.snapshot).1

/-! ### Book intake review (decide endpoint, admin.ts 1513-1640) -/

/-- An object-shaped tag selection (`{ tag_id }`) in the intake payload. -/
structure TagSel where
  tag_id : String
deriving DecidableEq, Repr

/-- The intake_json payload fields the decide endpoint reads: the five axis
selections plus the optional tag-selection arrays. -/
structure IntakeJson where
  title : String
  axes : Option Axes
  content_warnings : List TagSel
  tropes : List TagSel
  hero_archetypes : List String
  heroine_archetypes : List String
  representation : List TagSel
  kink_bundles : List String
  kink_details : List TagSel
deriving DecidableEq, Repr

/-- The union of tag ids referenced anywhere in the intake payload (axes plus
every optional array), deduplicated as the JS Set does. -/
def collectIntakeTagIds (j : IntakeJson) : List String :=
  ((match j.axes with
    | some a => [a.worldFramework, a.pairing, a.heatLevel, a.seriesStatus,
        a.consentMode].reduceOption
    | none => [])
   ++ j.content_warnings.map (fun t => t.tag_id)
   ++ j.tropes.map (fun t => t.tag_id)
   ++ j.hero_archetypes
   ++ j.heroine_archetypes
   ++ j.representation.map (fun t => t.tag_id)
   ++ j.kink_bundles
   ++ j.kink_details.map (fun t => t.tag_id)).dedup

/-- An author_book_intakes row (the columns the decide endpoint touches). -/
structure IntakeRow where
  id : String
  status : String
  asin : String
  json : IntakeJson
  createdBookId : Option String
  adminNotes : Option String
deriving DecidableEq, Repr

/-- A books row as the intake-approve path reads and writes it. -/
structure IntakeBook where
  id : String
  title : String
  slug : String
  asin : Option String
  status : String
deriving DecidableEq, Repr

/-- The store the decide endpoint operates on: the intake row under decision,
the books table, and the book_tags association rows. -/
structure IntakeSt where
  intake : IntakeRow
  books : List IntakeBook
  bookTags : List (String × String)
deriving DecidableEq, Repr

/-- Result of the decide endpoint. -/
inductive DecideResult where
  | alreadyDecided (status : String)
  | rejected
  | approved (bookId : String)
deriving DecidableEq, Repr

/-- `INSERT INTO book_tags ... ON CONFLICT (book_id, tag_id) DO NOTHING`. -/
def insertBookTag (rows : List (String × String)) (bookId tagId : String) :
    List (String × String) :=
  if rows.contains (bookId, tagId) then rows else rows ++ [(bookId, tagId)]

/-- Modelled from the spec: the books.status column default taken by rows the
intake-approve INSERT creates without an explicit status.  The migration
defining the column is not under src/; the spec's data model (§3) gives
status draft | published with books entering as drafts. -/
def defaultBookStatus : String := "draft"

/-- Find or create the target book: reuse by ASIN; otherwise insert, where
`ON CONFLICT (slug) DO UPDATE SET title = EXCLUDED.title` resolves a slug
collision by retitling the existing row and returning its id.  A newly
inserted row takes the books.status column default. -/
def materializeBook (books : List IntakeBook) (asin : String)
    (bookTitle bookSlug freshBookId : String) : String × List IntakeBook :=
  match books.find? (fun b => b.asin == some asin) with
  | some b => (b.id, books)
  | none =>
    match books.find? (fun b => b.slug == bookSlug) with
    | some b =>
      (b.id, books.map (fun x => if x.id == b.id then { x with title := bookTitle } else x))
    | none =>
      (freshBookId,
       books ++ [⟨freshBookId, bookTitle, bookSlug, some asin, defaultBookStatus⟩])

/-- The rejected-intake row update. -/
def rejectedIntakeRow (r : IntakeRow) (adminNotes : Option String) : IntakeRow :=
  { r with status := "rejected", adminNotes := some (adminNotes.getD "Rejected") }

/-- The approved-intake row update, recording the produced book id. -/
def approvedIntakeRow (r : IntakeRow) (bookId : String) (adminNotes : Option String) :
    IntakeRow :=
  { r with status := "approved", createdBookId := some bookId, adminNotes := adminNotes }

/-- The decide endpoint.  `slugifyFn` stands for the slugify helper imported
from src/security/slugify (not present under src/); the claims do not depend
on its output. -/
def decideIntake (st : IntakeSt) (action : String) (adminNotes : Option String)
    (overrideTitle overrideSlug : Option String) (freshBookId : String)
    (slugifyFn : String → String) : DecideResult × IntakeSt :=
  if st.intake.status ≠ "pending" then (.alreadyDecided st.intake.status, st)
  else if action == "reject" then
    (.rejected, { st with intake := rejectedIntakeRow st.intake adminNotes })
  else
    let bookTitle := overrideTitle.getD st.intake.json.title
    let bookSlug := overrideSlug.getD (slugifyFn bookTitle)
    let m := materializeBook st.books st.intake.asin bookTitle bookSlug freshBookId
    let bookId := m.1
    let tagIds := collectIntakeTagIds st.intake.json
    let bookTags := tagIds.foldl (fun acc tid => insertBookTag acc bookId tid) st.bookTags
    (.approved bookId,
     ⟨approvedIntakeRow st.intake bookId adminNotes, m.2, bookTags⟩)

lemma mem_insertBookTag (rows : List (String × String)) (b t : String)
    (pr : String × String) :
    pr ∈ insertBookTag rows b t ↔ pr ∈ rows ∨ pr = (b, t) := by
  unfold insertBookTag
  by_cases hc : (b, t) ∈ rows
  · rw [if_pos (by simpa using hc)]
    constructor
    · exact fun h => Or.inl h
    · rintro (h | h)
      · exact h
      · exact h ▸ hc
  · rw [if_neg (by simpa using hc)]
    simp

lemma mem_foldl_insertBookTag (tids : List String) (rows : List (String × String))
    (bookId : String) (pr : String × String) :
    pr ∈ tids.foldl (fun acc tid => insertBookTag acc bookId tid) rows
      ↔ pr ∈ rows ∨ (pr.1 = bookId ∧ pr.2 ∈ tids) := by
  induction tids generalizing rows with
  | nil => simp
  | cons t ts ih =>
    rw [List.foldl_cons, ih, mem_insertBookTag]
    cases pr with
    | mk a b =>
      simp only [Prod.mk.injEq, List.mem_cons]
      constructor
      · rintro ((h | ⟨h1, h2⟩) | ⟨h1, h2⟩)
        · exact Or.inl h
        · exact Or.inr ⟨h1, Or.inl h2⟩
        · exact Or.inr ⟨h1, Or.inr h2⟩
      · rintro (h | ⟨h1, h | h⟩)
        · exact Or.inl (Or.inl h)
        · exact Or.inl (Or.inr ⟨h1, h⟩)
        · exact Or.inr ⟨h1, h⟩

/-- **C9** (confirmed).  A decision is accepted only while the intake is
pending (a second attempt is rejected with the current status and no state
change); approval attaches exactly the union of the payload's tag ids to the
materialized book idempotently, marks the intake approved recording the book
id, and publishes nothing: any published book in the new state was already
published before. -/
theorem C9_intake_decide (st : IntakeSt) (action : String) (adminNotes : Option String)
    (ot os : Option String) (freshBookId : String) (slugifyFn : String → String) :
    (st.intake.status ≠ "pending" →
      decideIntake st action adminNotes ot os freshBookId slugifyFn
        = (.alreadyDecided st.intake.status, st))
    ∧ (st.intake.status = "pending" → action = "approve" →
      ∃ bookId,
        (decideIntake st action adminNotes ot os freshBookId slugifyFn).1
          = .approved bookId
        ∧ (∀ pr : String × String,
            pr ∈ (decideIntake st action adminNotes ot os freshBookId slugifyFn).2.bookTags
            ↔ pr ∈ st.bookTags
              ∨ (pr.1 = bookId ∧ pr.2 ∈ collectIntakeTagIds st.intake.json))
        ∧ (decideIntake st action adminNotes ot os freshBookId slugifyFn).2.intake.status
            = "approved"
        ∧ (decideIntake st action adminNotes ot os freshBookId slugifyFn).2.intake.createdBookId
            = some bookId
        ∧ (∀ b ∈ (decideIntake st action adminNotes ot os freshBookId slugifyFn).2.books,
            b.status = "published" →
            ∃ b0 ∈ st.books, b0.id = b.id ∧ b0.status = "published")) := by
  constructor
  · intro h
    unfold decideIntake
    rw [if_pos h]
  · intro hp ha
    subst ha
    unfold decideIntake
    rw [if_neg (by simp [hp]), if_neg (by decide)]
    refine ⟨(materializeBook st.books st.intake.asin (ot.getD st.intake.json.title)
      (os.getD (slugifyFn (ot.getD st.intake.json.title))) freshBookId).1,
      rfl, ?_, rfl, rfl, ?_⟩
    · intro pr
      exact mem_foldl_insertBookTag _ _ _ pr
    · intro b hb hpub
      have hb' : b ∈ (materializeBook st.books st.intake.asin (ot.getD st.intake.json.title)
          (os.getD (slugifyFn (ot.getD st.intake.json.title))) freshBookId).2 := hb
      unfold materializeBook at hb'
      cases hfa : st.books.find? (fun x => x.asin == some st.intake.asin) with
      | some b0 =>
        rw [hfa] at hb'
        exact ⟨b, hb', rfl, hpub⟩
      | none =>
        rw [hfa] at hb'
        cases hfs : st.books.find? (fun x =>
            x.slug == os.getD (slugifyFn (ot.getD st.intake.json.title))) with
        | some b0 =>
          rw [hfs] at hb'
          obtain ⟨x, hx, hxe⟩ := List.mem_map.1 hb'
          by_cases hid : x.id == b0.id
          · rw [if_pos hid] at hxe
            refine ⟨x, hx, ?_, ?_⟩
            · rw [← hxe]
            · rw [← hpub, ← hxe]
          · rw [if_neg hid] at hxe
            exact ⟨x, hx, by rw [hxe], by rw [hxe]; exact hpub⟩
        | none =>
          rw [hfs] at hb'
          rcases List.mem_append.1 hb' with h | h
          · exact ⟨b, h, rfl, hpub⟩
          · simp at h
            rw [h] at hpub
            simp [defaultBookStatus] at hpub

/-- The intake payload used in the C9 witness: all five axes plus two trope
selections. -/
def intakeJsonEx : IntakeJson :=
  ⟨"My Book", some goodAxesEx, [], [⟨"tg-etl"⟩, ⟨"tg-sb"⟩], [], [], [], [], []⟩

/-- A pending intake row. -/
def intakeRowEx : IntakeRow := ⟨"in1", "pending", "B000000001", intakeJsonEx, none, none⟩

/-- The pending intake over an empty catalog. -/
def intakeStEx : IntakeSt := ⟨intakeRowEx, [], []⟩

/-- The same intake already approved. -/
def intakeStDoneEx : IntakeSt :=
  ⟨⟨"in1", "approved", "B000000001", intakeJsonEx, some "bk0", none⟩, [], []⟩

/-- **C9** witness: a second decision on the approved intake is rejected with
no state change; approving the pending intake attaches exactly the payload's
tag union to the materialized book, marks it approved with the book id, and
publishes nothing. -/
theorem C9_witness :
    decideIntake intakeStDoneEx "approve" none none none "bk1" (fun s => s)
        = (.alreadyDecided "approved", intakeStDoneEx)
    ∧ ∃ bookId,
        (decideIntake intakeStEx "approve" none none none "bk1" (fun s => s)).1
          = .approved bookId
        ∧ (∀ pr : String × String,
            pr ∈ (decideIntake intakeStEx "approve" none none none "bk1" (fun s => s)).2.bookTags
            ↔ pr ∈ intakeStEx.bookTags
              ∨ (pr.1 = bookId ∧ pr.2 ∈ collectIntakeTagIds intakeStEx.intake.json))
        ∧ (decideIntake intakeStEx "approve" none none none "bk1" (fun s => s)).2.intake.status
            = "approved"
        ∧ (decideIntake intakeStEx "approve" none none none "bk1"
            (fun s => s)).2.intake.createdBookId = some bookId
        ∧ (∀ b ∈ (decideIntake intakeStEx "approve" none none none "bk1" (fun s => s)).2.books,
            b.status = "published" →
            ∃ b0 ∈ intakeStEx.books, b0.id = b.id ∧ b0.status = "published") :=
  ⟨(C9_intake_decide intakeStDoneEx "approve" none none none "bk1" (fun s => s)).1 (by decide),
   (C9_intake_decide intakeStEx "approve" none none none "bk1" (fun s => s)).2 rfl rfl⟩

/-! ### String normalization (create-book endpoint helpers, admin.ts 750-825)

The JS regex classes are ASCII here: `\w` = [A-Za-z0-9_], `\s` = whitespace. -/

/-- `\w` membership. -/
def isWordChar (c : Char) : Bool := c.isAlphanum || c == '_'

/-- Match one article alternative of `^(the|a|an)\s+` case-insensitively:
the article prefix followed by at least one whitespace, consuming the
whole whitespace run (greedy `\s+`). -/
def matchArticle (art : String) (cs : List Char) : Option (List Char) :=
  if (cs.take art.length).map Char.toLower == art.toList then
    match cs.drop art.length with
    | c :: rest =>
      if c.isWhitespace then some ((c :: rest).dropWhile Char.isWhitespace) else none
    | [] => none
  else none

/-- `replace(/^(the|a|an)\s+/i, '')`.  The alternatives are mutually exclusive
(an article match requires a following whitespace), so alternation order is
immaterial. -/
def stripLeadingArticle (cs : List Char) : List Char :=
  match matchArticle "the" cs with
  | some r => r
  | none =>
    match matchArticle "a" cs with
    | some r => r
    | none =>
      match matchArticle "an" cs with
      | some r => r
      | none => cs

/-- One global pass of `replace(/\s*\([^)]*\)\s*/g, '')`: each step removes
the leftmost match — the whitespace run before the first '(', the segment up
to the first ')' after it, and the following whitespace run — and continues
on the remaining suffix.  Fuel decreases strictly; `cs.length` suffices. -/
def stripParensGo : Nat → List Char → List Char
  | 0, cs => cs
  | fuel + 1, cs =>
    let pre := cs.takeWhile (fun c => c != '(')
    match cs.dropWhile (fun c => c != '(') with
    | [] => cs
    | _ :: afterParen =>
      match afterParen.dropWhile (fun c => c != ')') with
      | [] => cs
      | _ :: afterClose =>
        let tail := afterClose.dropWhile Char.isWhitespace
        let preTrimmed := (pre.reverse.dropWhile Char.isWhitespace).reverse
        preTrimmed ++ stripParensGo fuel tail

/-- `replace(/\s*\([^)]*\)\s*/g, '')`. -/
def stripParens (cs : List Char) : List Char := stripParensGo cs.length cs

/-- `replace(/[^\w\s]/g, '')`. -/
def stripPunct (cs : List Char) : List Char :=
  cs.filter (fun c => isWordChar c || c.isWhitespace)

/-- `replace(/\s+/g, ' ')`; the flag records whether the previous kept
character closed a whitespace run. -/
def collapseWs : Bool → List Char → List Char
  | _, [] => []
  | prevWs, c :: cs =>
    if c.isWhitespace then
      if prevWs then collapseWs true cs else ' ' :: collapseWs true cs
    else c :: collapseWs false cs

/-- `.trim()`. -/
def trimChars (cs : List Char) : List Char :=
  ((cs.dropWhile Char.isWhitespace).reverse.dropWhile Char.isWhitespace).reverse

/-- `normalizeTitle` (admin.ts 761-769): lower-case, strip a leading article,
strip parentheticals, strip punctuation, collapse whitespace, trim. -/
def normalizeTitle (title : String) : String :=
  String.mk (trimChars (collapseWs false (stripPunct
    (stripParens (stripLeadingArticle (title.toList.map Char.toLower))))))

/-- `normalizeAuthorName` (admin.ts 772-778): lower-case, strip punctuation,
collapse whitespace, trim. -/
def normalizeAuthorName (name : String) : String :=
  String.mk (trimChars (collapseWs false (stripPunct (name.toList.map Char.toLower))))

/-- The stored-side title normalization used inside the tier-2 and tier-4 SQL:
`LOWER(REGEXP_REPLACE(REGEXP_REPLACE(title, '^(the|a|an)\s+', '', 'i'),
'[^\w\s]', '', 'g'))` — article strip and punctuation strip only; no
parenthetical stripping, whitespace collapsing or trimming. -/
def sqlNormTitle (title : String) : String :=
  String.mk ((stripPunct (stripLeadingArticle title.toList)).map Char.toLower)

/-- The stored-side author normalization of the tier-2 SQL and the author
reuse lookup: `LOWER(REGEXP_REPLACE(name, '[^\w\s]', '', 'g'))`. -/
def sqlNormAuthor (name : String) : String :=
  String.mk ((stripPunct name.toList).map Char.toLower)

/-- `normalizeAsin` (admin.ts 752-758): trim, upper-case, drop whitespace,
then require exactly ten characters in [A-Z0-9]. -/
def normalizeAsin (asin : String) : Option String :=
  let cleaned := ((trimChars asin.toList).map Char.toUpper).filter (fun c => !c.isWhitespace)
  if cleaned.length == 10 && cleaned.all (fun c => c.isUpper || c.isDigit) then
    some (String.mk cleaned)
  else none

/-- `title.toLowerCase().replace(/[^a-z0-9]+/g, "-")`: each maximal run of
characters outside [a-z0-9] becomes one dash. -/
def slugCollapse : Bool → List Char → List Char
  | _, [] => []
  | prevDash, c :: cs =>
    if c.isLower || c.isDigit then c :: slugCollapse false cs
    else if prevDash then slugCollapse true cs
    else '-' :: slugCollapse true cs

/-- `replace(/^-|-$/g, "")`: one leading and one trailing dash removed. -/
def dropEdgeDashes (cs : List Char) : List Char :=
  let cs1 := match cs with
    | '-' :: r => r
    | _ => cs
  match cs1.reverse with
  | '-' :: r => r.reverse
  | _ => cs1

/-- The `baseSlug` computation of the create-book endpoint (admin.ts 820-824). -/
def baseSlugOf (title : String) : String :=
  String.mk ((dropEdgeDashes (slugCollapse false (title.toList.map Char.toLower))).take 100)

/-- `LOWER(...)` / `.toLowerCase()` string comparison helper. -/
def lowerStr (s : String) : String := String.mk (s.toList.map Char.toLower)

/-! ### Tiered duplicate detection (create-book endpoint, admin.ts 826-959) -/

/-- A books-table row as the duplicate queries read it (author = the first
linked author's name, asin = the identifier row's ASIN). -/
structure CatBook where
  id : String
  title : String
  author : Option String
  asin : Option String
  slug : String
  status : String
deriving DecidableEq, Repr

/-- A duplicate candidate as pushed onto the `duplicates` array. -/
structure Duplicate where
  book_id : String
  title : String
  author : Option String
  asin : Option String
  status : String
  confidence : String
  match_reason : String
deriving DecidableEq, Repr

/-- Tier 1: ASIN exact match, high confidence, unlimited. -/
def tier1Dupes (books : List CatBook) (asin : Option String) : List Duplicate :=
  match asin with
  | none => []
  | some a =>
    (books.filter (fun b => b.asin == some a)).map (fun b =>
      ⟨b.id, b.title, b.author, b.asin, b.status, "high", "asin_exact"⟩)

/-- Tier 2 rows: stored-side-normalized title and author equal to the
(input-side) normalized title/author, LIMIT 5. -/
def tier2Dupes (books : List CatBook) (titleNormalized : String)
    (authorNormalized : Option String) : List Duplicate :=
  match authorNormalized with
  | none => []
  | some an =>
    ((books.filter (fun b =>
        sqlNormTitle b.title == titleNormalized
          && (match b.author with
              | some nm => sqlNormAuthor nm == an
              | none => false))).take 5).map (fun b =>
      ⟨b.id, b.title, b.author, none, b.status, "medium", "title_author_normalized"⟩)

/-- Tier 3 rows: case-insensitive exact raw-title match, LIMIT 5. -/
def tier3Dupes (books : List CatBook) (title : String) : List Duplicate :=
  ((books.filter (fun b => lowerStr b.title == lowerStr title)).take 5).map (fun b =>
    ⟨b.id, b.title, b.author, none, b.status, "medium", "title_exact"⟩)

/-- Tier 4 rows: stored-side-normalized title match with the ids found so far
excluded inside the query (`b.id NOT IN (...)` — embedded by its declarative
intent; the JS-side skip below re-checks it), LIMIT 5. -/
def tier4Dupes (books : List CatBook) (titleNormalized : String)
    (excludeIds : List String) : List Duplicate :=
  ((books.filter (fun b =>
      sqlNormTitle b.title == titleNormalized && !excludeIds.contains b.id)).take 5).map
    (fun b => ⟨b.id, b.title, b.author, none, b.status, "low", "title_normalized"⟩)

/-- The per-candidate skip: push unless a higher tier already found the book. -/
def pushUnique (acc : List Duplicate) (cands : List Duplicate) : List Duplicate :=
  cands.foldl
    (fun acc d => if acc.any (fun x => x.book_id == d.book_id) then acc else acc ++ [d]) acc

/-- The `duplicates` array after the tier-3 loop. -/
def dupesAfterTier3 (books : List CatBook) (asin : Option String)
    (titleNormalized : String) (authorNormalized : Option String)
    (title : String) : List Duplicate :=
  pushUnique (pushUnique (tier1Dupes books asin)
    (tier2Dupes books titleNormalized authorNormalized)) (tier3Dupes books title)

/-- The tiered duplicate detection as the endpoint runs it: tier 1 pushed
unconditionally, tiers 2-4 each skipping already-found books; the tier-4
query additionally excludes the ids collected so far. -/
def findDuplicates (books : List CatBook) (asin : Option String)
    (titleNormalized : String) (authorNormalized : Option String)
    (title : String) : List Duplicate :=
  pushUnique (dupesAfterTier3 books asin titleNormalized authorNormalized title)
    (tier4Dupes books titleNormalized
      ((dupesAfterTier3 books asin titleNormalized authorNormalized title).map
        (fun d => d.book_id)))

/-- The whole scan as it actually runs.  The tier-4 query embeds the ids
collected so far as `b.id NOT IN (SELECT unnest(ARRAY[${ids.join(',')}]::uuid[]))`
(admin.ts 917): the client passes the joined string as ONE bind parameter, so
Postgres casts the entire comma-joined list to a single uuid.  Book ids are
well-formed uuids, so the cast succeeds only when exactly one id was
collected by tiers 1-3; with zero ids (an empty string) or two or more (a
string containing a comma) the bind fails and the query throws before
returning any row.  `.error ()` stands for that thrown invalid-uuid error. -/
def runDuplicateScan (books : List CatBook) (asin : Option String)
    (titleNormalized : String) (authorNormalized : Option String)
    (title : String) : Except Unit (List Duplicate) :=
  if (dupesAfterTier3 books asin titleNormalized authorNormalized title).length == 1 then
    .ok (findDuplicates books asin titleNormalized authorNormalized title)
  else .error ()

/-! ### Create-book endpoint (admin.ts 780-1090): duplicate policy, creation,
idempotency-key replay -/

/-- The create-book request after schema validation, plus the `force` query
flag and the Idempotency-Key header. -/
structure CreateReq where
  title : String
  author_name : Option String
  asin : Option String
  isbn13 : Option String
  force : Bool
  force_reason : Option String
  idemKey : Option String
deriving DecidableEq, Repr

/-- An authors-table row. -/
structure AuthorRow where
  id : String
  name : String
deriving DecidableEq, Repr

/-- An events-table row (the fields the claims inspect). -/
structure AuditEvent where
  eventType : String
  dupPayload : List Duplicate
deriving DecidableEq, Repr

/-- The successful create-book response body (the fields the claims touch). -/
structure CreatedResponse where
  book_id : String
  slug : String
  author_id : Option String
  author_created : Bool
  duplicates_overridden : Nat
deriving DecidableEq, Repr

/-- One KV entry of the idempotency cache, expiring `86400` seconds after the
put (`expirationTtl: 86400`). -/
structure KVEntry where
  key : String
  value : CreatedResponse
  expiresAt : Nat
deriving DecidableEq, Repr

/-- The store the create-book endpoint reads and writes. -/
structure AdminSt where
  books : List CatBook
  authors : List AuthorRow
  events : List AuditEvent
  kv : List KVEntry
deriving DecidableEq, Repr

/-- Result of the create-book endpoint.  `tier4Error` is the thrown
invalid-uuid bind of the tier-4 duplicate query (outside the creation
try/catch, so it escapes as a 500 with nothing written). -/
inductive CreateOutcome where
  | cachedHit (r : CreatedResponse)
  | invalidAsin
  | tier4Error
  | duplicatesFound (dups : List Duplicate)
  | forceReasonRequired
  | slugExhausted
  | created (r : CreatedResponse)
deriving DecidableEq, Repr

/-- `env.RATE_LIMIT.get`: the newest live entry for the key (an entry is gone
once `now` reaches its expiry). -/
def kvGet (kv : List KVEntry) (k : String) (now : Nat) : Option CreatedResponse :=
  (kv.find? (fun e => e.key == k && decide (now < e.expiresAt))).map (fun e => e.value)

/-- `env.RATE_LIMIT.put(..., { expirationTtl: 86400 })`. -/
def kvPut (kv : List KVEntry) (k : String) (v : CreatedResponse) (now : Nat) :
    List KVEntry :=
  ⟨k, v, now + 86400⟩ :: kv

/-- The idempotency-replay lookup at the top of the endpoint. -/
def cacheLookup (st : AdminSt) (now : Nat) (kvEnabled : Bool) (req : CreateReq) :
    Option CreatedResponse :=
  match req.idemKey with
  | some k => if kvEnabled then kvGet st.kv k now else none
  | none => none

/-- The slug uniquification loop: try base, then base-2 ... base-100; a
pre-incremented suffix above 100 throws ("Could not generate unique slug",
`none` here).  Fuel 101 covers every reachable iteration. -/
def uniqueSlugGo (books : List CatBook) (base : String) : Nat → Nat → Option String
  | 0, _ => none
  | fuel + 1, suffix =>
    let slug := if suffix == 1 then base else base ++ "-" ++ toString suffix
    if books.any (fun b => b.slug == slug) then
      if suffix + 1 > 100 then none
      else uniqueSlugGo books base fuel (suffix + 1)
    else some slug

/-- The slug loop with its `baseSlug || 'untitled'` fallback. -/
def uniqueSlug (books : List CatBook) (baseSlug : String) : Option String :=
  uniqueSlugGo books (if baseSlug == "" then "untitled" else baseSlug) 101 1

/-- Author resolution: reuse an author matched by the stored-side normalized
name, else insert a new row (which also logs AUTHOR_CREATED). -/
structure AuthorResolution where
  authorId : String
  linkedName : String
  created : Bool
  authors : List AuthorRow
deriving DecidableEq, Repr

/-- `SELECT ... FROM authors WHERE LOWER(REGEXP_REPLACE(name, ...)) = an`
then insert on miss. -/
def resolveAuthor (authors : List AuthorRow) (an : String) (nm : String)
    (freshAuthorId : String) : AuthorResolution :=
  match authors.find? (fun a => sqlNormAuthor a.name == an) with
  | some a => ⟨a.id, a.name, false, authors⟩
  | none => ⟨freshAuthorId, nm, true, authors ++ [⟨freshAuthorId, nm⟩]⟩

/-- `!force_reason`: absent or empty-string justification. -/
def hasForceReason (req : CreateReq) : Bool :=
  match req.force_reason with
  | some r => !(r == "")
  | none => false

/-- The ASIN schema rejection: an ASIN was supplied but fails normalization. -/
def asinRejected (req : CreateReq) : Bool :=
  match req.asin with
  | some raw => (normalizeAsin raw).isNone
  | none => false

/-- The normalized ASIN of the request. -/
def asinNormOf (req : CreateReq) : Option String :=
  match req.asin with
  | some raw => normalizeAsin raw
  | none => none

/-- The duplicate candidates the endpoint computes for a request (the value
its scan returns when the tier-4 bind does not throw). -/
def dupesOf (st : AdminSt) (req : CreateReq) : List Duplicate :=
  findDuplicates st.books (asinNormOf req) (normalizeTitle req.title)
    (req.author_name.map normalizeAuthorName) req.title

/-- The duplicate scan the endpoint runs for a request. -/
def scanOf (st : AdminSt) (req : CreateReq) : Except Unit (List Duplicate) :=
  runDuplicateScan st.books (asinNormOf req) (normalizeTitle req.title)
    (req.author_name.map normalizeAuthorName) req.title

/-- The create-book endpoint.  `freshBookId`/`freshAuthorId` stand for the
database-generated row ids. -/
def createBook (st : AdminSt) (now : Nat) (kvEnabled : Bool) (req : CreateReq)
    (freshBookId freshAuthorId : String) : CreateOutcome × AdminSt :=
  match cacheLookup st now kvEnabled req with
  | some cached => (.cachedHit cached, st)
  | none =>
    if asinRejected req then (.invalidAsin, st)
    else
      match scanOf st req with
      | .error _ => (.tier4Error, st)
      | .ok duplicates =>
        if duplicates.length > 0 && !req.force then
          (.duplicatesFound duplicates,
           { st with events := st.events ++ [⟨"BOOK_DUPLICATE_DETECTED", duplicates⟩] })
        else
          let hasHigh := duplicates.any (fun d => d.confidence == "high")
          if req.force && hasHigh && !hasForceReason req then (.forceReasonRequired, st)
          else
            match uniqueSlug st.books (baseSlugOf req.title) with
            | none => (.slugExhausted, st)
            | some slug =>
              let ar : Option AuthorResolution := req.author_name.map (fun nm =>
                resolveAuthor st.authors (normalizeAuthorName nm) nm freshAuthorId)
              let newBook : CatBook :=
                ⟨freshBookId, req.title, (ar.map (fun r => r.linkedName)), asinNormOf req,
                  slug, "draft"⟩
              let authorEvents : List AuditEvent :=
                match ar with
                | some r => if r.created then [⟨"AUTHOR_CREATED", []⟩] else []
                | none => []
              let eventType :=
                if req.force && duplicates.length > 0 then "BOOK_FORCE_CREATED"
                else "BOOK_CREATED"
              let response : CreatedResponse :=
                ⟨freshBookId, slug, ar.map (fun r => r.authorId),
                  (ar.map (fun r => r.created)).getD false,
                  if req.force then duplicates.length else 0⟩
              let kv := match req.idemKey with
                | some k => if kvEnabled then kvPut st.kv k response now else st.kv
                | none => st.kv
              (.created response,
               ⟨st.books ++ [newBook],
                (ar.map (fun r => r.authors)).getD st.authors,
                st.events ++ authorEvents
                  ++ [⟨eventType, if req.force then duplicates else []⟩],
                kv⟩)

/-- The book ids of a candidate list. -/
def dupIds (ds : List Duplicate) : List String := ds.map (fun d => d.book_id)

/-- Spec-side (amended): the tier-2 candidates kept after dropping books the
identifier tier already found. -/
def specTier2kept (books : List CatBook) (asin : Option String)
    (titleNormalized : String) (authorNormalized : Option String) : List Duplicate :=
  (tier2Dupes books titleNormalized authorNormalized).filter
    (fun d => !(dupIds (tier1Dupes books asin)).contains d.book_id)

/-- Spec-side (amended): the tier-3 candidates kept after dropping books the
two higher tiers found. -/
def specTier3kept (books : List CatBook) (asin : Option String)
    (titleNormalized : String) (authorNormalized : Option String)
    (title : String) : List Duplicate :=
  (tier3Dupes books title).filter
    (fun d => !(dupIds (tier1Dupes books asin
        ++ specTier2kept books asin titleNormalized authorNormalized)).contains d.book_id)

/-- Spec-side (amended) formulation of the tier cascade: the four tier result
sets concatenated in priority order, each tier dropping candidates whose book
was already found by a higher tier; for the tier-4 query the exclusion sits
inside the query (before its LIMIT), as in the source. -/
def specTierDuplicates (books : List CatBook) (asin : Option String)
    (titleNormalized : String) (authorNormalized : Option String)
    (title : String) : List Duplicate :=
  tier1Dupes books asin
    ++ specTier2kept books asin titleNormalized authorNormalized
    ++ specTier3kept books asin titleNormalized authorNormalized title
    ++ tier4Dupes books titleNormalized
        (dupIds (tier1Dupes books asin
          ++ specTier2kept books asin titleNormalized authorNormalized
          ++ specTier3kept books asin titleNormalized authorNormalized title))

lemma any_book_id_eq_contains (acc : List Duplicate) (i : String) :
    acc.any (fun x => x.book_id == i) = (dupIds acc).contains i := by
  induction acc with
  | nil => rfl
  | cons d ds ih =>
    have hsym : (d.book_id == i) = (i == d.book_id) := by
      rw [Bool.eq_iff_iff, beq_iff_eq, beq_iff_eq]
      exact eq_comm
    show ((d.book_id == i) || ds.any (fun x => x.book_id == i)) = _
    rw [ih, hsym]
    rfl

lemma pushUnique_eq (cands acc : List Duplicate) (h : (dupIds cands).Nodup) :
    pushUnique acc cands
      = acc ++ cands.filter (fun d => !(dupIds acc).contains d.book_id) := by
  induction cands generalizing acc with
  | nil => simp [pushUnique]
  | cons d ds ih =>
    have h' : (d.book_id :: dupIds ds).Nodup := h
    have hd : d.book_id ∉ dupIds ds := (List.nodup_cons.1 h').1
    have htl : (dupIds ds).Nodup := (List.nodup_cons.1 h').2
    show List.foldl _ _ (d :: ds) = _
    rw [List.foldl_cons]
    cases hc : (dupIds acc).contains d.book_id with
    | true =>
      rw [show (if acc.any (fun x => x.book_id == d.book_id) then acc else acc ++ [d]) = acc
        by rw [any_book_id_eq_contains, hc]; rfl]
      have hih := ih acc htl
      unfold pushUnique at hih
      rw [hih, List.filter_cons]
      have hpd : (!(dupIds acc).contains d.book_id) = false := by rw [hc]; rfl
      rw [hpd, if_neg (by simp : ¬ (false = true))]
    | false =>
      rw [show (if acc.any (fun x => x.book_id == d.book_id) then acc else acc ++ [d])
          = acc ++ [d] by rw [any_book_id_eq_contains, hc]; rfl]
      have hih := ih (acc ++ [d]) htl
      unfold pushUnique at hih
      rw [hih, List.filter_cons]
      have hpd : (!(dupIds acc).contains d.book_id) = true := by rw [hc]; rfl
      rw [hpd]
      have hfe : ds.filter (fun x => !(dupIds (acc ++ [d])).contains x.book_id)
          = ds.filter (fun x => !(dupIds acc).contains x.book_id) := by
        apply List.filter_congr
        intro x hx
        have hne : x.book_id ≠ d.book_id := by
          intro he
          exact hd (he ▸ (List.mem_map.2 ⟨x, hx, rfl⟩))
        have hap : dupIds (acc ++ [d]) = dupIds acc ++ [d.book_id] := by
          simp [dupIds]
        rw [hap]
        simp [hne]
      rw [hfe, List.append_assoc, if_pos rfl]
      rfl

lemma nodup_dupIds_of_sublist (books l : List CatBook)
    (hn : (books.map (fun b => b.id)).Nodup) (hsub : List.Sublist l books)
    (mk : CatBook → Duplicate) (hmk : ∀ b, (mk b).book_id = b.id) :
    (dupIds (l.map mk)).Nodup := by
  have he : dupIds (l.map mk) = l.map (fun b => b.id) := by
    simp [dupIds, List.map_map, Function.comp_def, hmk]
  rw [he]
  exact hn.sublist (hsub.map _)

lemma take_filter_sublist (p : CatBook → Bool) (books : List CatBook) (n : Nat) :
    List.Sublist ((books.filter p).take n) books :=
  ((books.filter p).take_sublist n).trans (List.filter_sublist books)

lemma nodup_tier1 (books : List CatBook) (asin : Option String)
    (hn : (books.map (fun b => b.id)).Nodup) :
    (dupIds (tier1Dupes books asin)).Nodup := by
  unfold tier1Dupes
  cases asin with
  | none => simp [dupIds]
  | some a =>
    exact nodup_dupIds_of_sublist books _ hn (List.filter_sublist books) _ (fun b => rfl)

lemma nodup_tier2 (books : List CatBook) (tn : String) (an : Option String)
    (hn : (books.map (fun b => b.id)).Nodup) :
    (dupIds (tier2Dupes books tn an)).Nodup := by
  unfold tier2Dupes
  cases an with
  | none => simp [dupIds]
  | some a =>
    exact nodup_dupIds_of_sublist books _ hn (take_filter_sublist _ books 5) _ (fun b => rfl)

lemma nodup_tier3 (books : List CatBook) (title : String)
    (hn : (books.map (fun b => b.id)).Nodup) :
    (dupIds (tier3Dupes books title)).Nodup := by
  unfold tier3Dupes
  exact nodup_dupIds_of_sublist books _ hn (take_filter_sublist _ books 5) _ (fun b => rfl)

lemma nodup_tier4 (books : List CatBook) (tn : String) (ex : List String)
    (hn : (books.map (fun b => b.id)).Nodup) :
    (dupIds (tier4Dupes books tn ex)).Nodup := by
  unfold tier4Dupes
  exact nodup_dupIds_of_sublist books _ hn (take_filter_sublist _ books 5) _ (fun b => rfl)

lemma tier4_excluded (books : List CatBook) (tn : String) (ex : List String) :
    ∀ d ∈ tier4Dupes books tn ex, ex.contains d.book_id = false := by
  intro d hd
  unfold tier4Dupes at hd
  obtain ⟨b, hb, he⟩ := List.mem_map.1 hd
  have hbf : b ∈ books.filter (fun b =>
      sqlNormTitle b.title == tn && !ex.contains b.id) := by
    exact List.mem_of_mem_take hb
  have hp := (List.mem_filter.1 hbf).2
  rw [Bool.and_eq_true] at hp
  rw [← he]
  simpa using hp.2

/-- Under primary-key uniqueness of book ids, the candidate list the scan
builds (when it survives the tier-4 bind) equals the four-tier cascade in
priority order with each tier dropping books already found above. -/
lemma findDuplicates_eq_specTiers (books : List CatBook) (asin : Option String)
    (tn : String) (an : Option String) (title : String)
    (hn : (books.map (fun b => b.id)).Nodup) :
    findDuplicates books asin tn an title = specTierDuplicates books asin tn an title := by
  have e2 : pushUnique (tier1Dupes books asin) (tier2Dupes books tn an)
      = tier1Dupes books asin ++ specTier2kept books asin tn an :=
    pushUnique_eq (tier2Dupes books tn an) (tier1Dupes books asin)
      (nodup_tier2 books tn an hn)
  have e3 : dupesAfterTier3 books asin tn an title
      = (tier1Dupes books asin ++ specTier2kept books asin tn an)
        ++ specTier3kept books asin tn an title := by
    unfold dupesAfterTier3
    rw [e2]
    exact pushUnique_eq (tier3Dupes books title) _ (nodup_tier3 books title hn)
  have hids : (dupesAfterTier3 books asin tn an title).map (fun d => d.book_id)
      = dupIds (tier1Dupes books asin ++ specTier2kept books asin tn an
          ++ specTier3kept books asin tn an title) := by
    rw [e3]
    simp [dupIds, List.append_assoc]
  unfold findDuplicates
  rw [hids, e3]
  have e4 := pushUnique_eq
    (tier4Dupes books tn (dupIds (tier1Dupes books asin
      ++ specTier2kept books asin tn an ++ specTier3kept books asin tn an title)))
    ((tier1Dupes books asin ++ specTier2kept books asin tn an)
      ++ specTier3kept books asin tn an title)
    (nodup_tier4 books tn _ hn)
  rw [e4]
  have hagree : dupIds ((tier1Dupes books asin ++ specTier2kept books asin tn an)
      ++ specTier3kept books asin tn an title)
      = dupIds (tier1Dupes books asin ++ specTier2kept books asin tn an
          ++ specTier3kept books asin tn an title) := by
    simp [dupIds, List.append_assoc]
  have hkeep : (tier4Dupes books tn (dupIds (tier1Dupes books asin
        ++ specTier2kept books asin tn an ++ specTier3kept books asin tn an title))).filter
      (fun d => !(dupIds ((tier1Dupes books asin ++ specTier2kept books asin tn an)
        ++ specTier3kept books asin tn an title)).contains d.book_id)
      = tier4Dupes books tn (dupIds (tier1Dupes books asin
          ++ specTier2kept books asin tn an ++ specTier3kept books asin tn an title)) := by
    apply List.filter_eq_self.2
    intro d hd
    rw [hagree, tier4_excluded books tn _ d hd]
    rfl
  rw [hkeep]
  unfold specTierDuplicates
  simp [List.append_assoc]

/-- **C6** (amended).  Under primary-key uniqueness of book ids: when tiers
1-3 collected exactly one candidate, the scan returns the four-tier cascade
in priority order (confidences high / medium / medium / low, each tier
dropping books already found above, the stored-side normalization of tiers 2
and 4 being lower-casing, leading-article stripping and punctuation
stripping only — no parenthetical stripping or whitespace collapsing, unlike
the input side — and the stored-side author normalization lacking whitespace
collapsing); with zero or two-plus candidates collected, the tier-4 query's
single-bind-parameter `ARRAY[...]::uuid[]` is not a well-formed uuid and the
scan throws instead of returning candidates. -/
theorem C6_tiered_duplicates (books : List CatBook) (asin : Option String)
    (tn : String) (an : Option String) (title : String)
    (hn : (books.map (fun b => b.id)).Nodup) :
    runDuplicateScan books asin tn an title
      = if (dupesAfterTier3 books asin tn an title).length = 1
        then .ok (specTierDuplicates books asin tn an title)
        else .error () := by
  unfold runDuplicateScan
  by_cases h : (dupesAfterTier3 books asin tn an title).length = 1
  · have hb : ((dupesAfterTier3 books asin tn an title).length == 1) = true :=
      beq_iff_eq.2 h
    rw [if_pos h, hb, if_pos rfl]
    exact congrArg Except.ok (findDuplicates_eq_specTiers books asin tn an title hn)
  · have hb : ((dupesAfterTier3 books asin tn an title).length == 1) = false := by
      simpa using h
    rw [if_neg h, hb, if_neg (by simp)]

/-- A stored book whose title normalizes — under the claim's both-sides
normalization — identically to the input "Duke". -/
def dukeNovelBookEx : CatBook :=
  ⟨"b1", "Duke (A Novel)", some "Ann Author", none, "duke-a-novel", "draft"⟩

/-- **C6** counterexample.  The claim says the stored side is normalized with
parenthetical stripping and whitespace collapsing like the input side; then
"Duke (A Novel)" by "Ann Author" would tier-2-match a request for "Duke" by
"Ann Author".  Instead tiers 1-3 collect nothing (the SQL side keeps the
parenthetical) and the tier-4 query's empty-string uuid bind throws: the scan
errors, returning no medium-confidence candidate. -/
theorem C6_counterexample :
    normalizeTitle "Duke (A Novel)" = normalizeTitle "Duke"
    ∧ normalizeAuthorName "Ann Author" = normalizeAuthorName "Ann Author"
    ∧ runDuplicateScan [dukeNovelBookEx] none (normalizeTitle "Duke")
        (some (normalizeAuthorName "Ann Author")) "Duke" = .error () := by
  refine ⟨by decide, rfl, rfl⟩

/-- A stored book that tiers 2-3 find as the single candidate for "Duke" by
"Ann Author". -/
def dukeBookEx : CatBook :=
  ⟨"bk-duke", "Duke", some "Ann Author", some "B0ABCDEFGH", "duke", "draft"⟩

/-- **C6** witness: the scan characterisation applied at a catalog where
tiers 1-3 collect exactly one candidate, so the scan returns the cascade. -/
theorem C6_witness :
    runDuplicateScan [dukeBookEx] none (normalizeTitle "Duke")
        (some (normalizeAuthorName "Ann Author")) "Duke"
      = if (dupesAfterTier3 [dukeBookEx] none (normalizeTitle "Duke")
            (some (normalizeAuthorName "Ann Author")) "Duke").length = 1
        then .ok (specTierDuplicates [dukeBookEx] none (normalizeTitle "Duke")
            (some (normalizeAuthorName "Ann Author")) "Duke")
        else .error () :=
  C6_tiered_duplicates [dukeBookEx] none (normalizeTitle "Duke")
    (some (normalizeAuthorName "Ann Author")) "Duke" (by decide)

/-- Two stored drafts sharing the raw title "Duke". -/
def twoDukesSt : AdminSt :=
  ⟨[⟨"bd1", "Duke", some "Ann Author", none, "duke", "draft"⟩,
    ⟨"bd2", "Duke", some "Bea Author", none, "duke-2", "draft"⟩],
   [⟨"au1", "Ann Author"⟩, ⟨"au2", "Bea Author"⟩], [], []⟩

/-- A create request for "Duke" with no author, no ASIN and no override. -/
def reqTwoDukesEx : CreateReq := ⟨"Duke", none, none, none, false, none, none⟩

/-- **C7** (code bug).  The claim requires a structured duplicates-found
refusal carrying the full candidate list plus an audit event whenever
duplicates exist and no override was requested.  Instead, with two stored
books titled "Duke", tier 3 collects both candidates and the tier-4 query
binds their comma-joined ids as one uuid: the scan throws, the request ends
in the tier-4 error (a 500), and no audit event is written — the refusal
policy code is never reached. -/
theorem C7_tier4_bug :
    (dupesAfterTier3 twoDukesSt.books none (normalizeTitle "Duke") none "Duke").length = 2
    ∧ scanOf twoDukesSt reqTwoDukesEx = .error ()
    ∧ createBook twoDukesSt 0 true reqTwoDukesEx "nb" "na" = (.tier4Error, twoDukesSt)
    ∧ (createBook twoDukesSt 0 true reqTwoDukesEx "nb" "na").2.events = [] := by
  refine ⟨by decide, rfl, by decide, by decide⟩

/-- The catalog state used in the C10 scenarios: one existing book with an
identifier. -/
def dukeCatalogEx : AdminSt := ⟨[dukeBookEx], [⟨"au1", "Ann Author"⟩], [], []⟩

/-- Outcome classifier: was the response served from the idempotency cache? -/
def isCachedHit : CreateOutcome → Bool
  | .cachedHit _ => true
  | _ => false

/-- The duplicate request carrying an Idempotency-Key. -/
def reqIdemEx : CreateReq := ⟨"Duke", some "Ann Author", none, none, false, none, some "k1"⟩

/-- **C10** counterexample.  When the first request with the key ends in a
duplicates-found refusal, nothing is cached: the key misses in the KV store
afterwards, the second identical request is not served from the cache (it
re-runs detection) and appends a second audit event. -/
theorem C10_counterexample :
    kvGet ((createBook dukeCatalogEx 0 true reqIdemEx "nb" "na").2).kv "k1" 0 = none
    ∧ isCachedHit ((createBook ((createBook dukeCatalogEx 0 true reqIdemEx "nb" "na").2)
        0 true reqIdemEx "nb" "na").1) = false
    ∧ ((createBook ((createBook dukeCatalogEx 0 true reqIdemEx "nb" "na").2)
        0 true reqIdemEx "nb" "na").2).events.length
      = ((createBook dukeCatalogEx 0 true reqIdemEx "nb" "na").2).events.length + 1 := by
  refine ⟨by decide, by decide, by decide⟩

/-- The KV write a successful creation performs under an idempotency key. -/
lemma createBook_created_kv (st : AdminSt) (now : Nat) (req : CreateReq)
    (f1 f2 : String) (resp : CreatedResponse) (st1 : AdminSt) (k : String)
    (hk : req.idemKey = some k)
    (h : createBook st now true req f1 f2 = (.created resp, st1)) :
    st1.kv = kvPut st.kv k resp now := by
  unfold createBook at h
  cases hc : cacheLookup st now true req with
  | some cached =>
    rw [hc] at h
    simp at h
  | none =>
    rw [hc] at h
    by_cases ha : asinRejected req = true
    · rw [if_pos ha] at h
      simp at h
    · rw [if_neg ha] at h
      cases hscan : scanOf st req with
      | error e =>
        rw [hscan] at h
        simp at h
      | ok duplicates =>
      simp only [hscan] at h
      by_cases hd : (decide (duplicates.length > 0) && !req.force) = true
      · rw [if_pos hd] at h
        simp at h
      · rw [if_neg hd] at h
        by_cases hr : (req.force && duplicates.any (fun d => d.confidence == "high")
            && !hasForceReason req) = true
        · rw [if_pos hr] at h
          simp at h
        · rw [if_neg hr] at h
          cases hs : uniqueSlug st.books (baseSlugOf req.title) with
          | none =>
            rw [hs] at h
            simp at h
          | some slug =>
            rw [hs] at h
            simp only [Prod.mk.injEq, CreateOutcome.created.injEq] at h
            obtain ⟨h1, h2⟩ := h
            rw [← h2]
            simp only [hk]
            rw [h1]
            simp

/-- **C10** (amended).  The idempotency replay holds for requests whose first
run actually created a book: a second request bearing the same key within the
86400-second lifetime of the cached entry is answered from the cache with the
first run's response and changes nothing; a failed first attempt caches
nothing (see the counterexample). -/
theorem C10_idempotent_replay (st : AdminSt) (now t' : Nat) (req req₂ : CreateReq)
    (k : String) (f1 f2 g1 g2 : String) (resp : CreatedResponse) (st1 : AdminSt) :
    req.idemKey = some k → req₂.idemKey = some k →
    createBook st now true req f1 f2 = (.created resp, st1) →
    t' < now + 86400 →
    createBook st1 t' true req₂ g1 g2 = (.cachedHit resp, st1) := by
  intro hk hk2 h ht
  have hkv := createBook_created_kv st now req f1 f2 resp st1 k hk h
  have hcl : cacheLookup st1 t' true req₂ = some resp := by
    simp only [cacheLookup, hk2, if_true]
    rw [hkv]
    unfold kvPut kvGet
    rw [List.find?_cons_of_pos _ (by simp [ht])]
    rfl
  unfold createBook
  rw [hcl]

/-- The force-create request for "Duke" carrying an Idempotency-Key (the one
collected candidate is medium-confidence, so no justification is needed). -/
def reqForceIdemEx : CreateReq :=
  ⟨"Duke", some "Ann Author", none, none, true, none, some "k2"⟩

/-- The response of running `reqForceIdemEx` against `dukeCatalogEx`. -/
def respForceEx : CreatedResponse := ⟨"bk2", "duke-2", some "au1", false, 1⟩

/-- The single tier-2 candidate the scan returns there. -/
def dukeDupEx : Duplicate :=
  ⟨"bk-duke", "Duke", some "Ann Author", none, "draft", "medium", "title_author_normalized"⟩

/-- The state after that force creation. -/
def stAfterForceEx : AdminSt :=
  ⟨[dukeBookEx, ⟨"bk2", "Duke", some "Ann Author", none, "duke-2", "draft"⟩],
   [⟨"au1", "Ann Author"⟩],
   [⟨"BOOK_FORCE_CREATED", [dukeDupEx]⟩],
   [⟨"k2", respForceEx, 86400⟩]⟩

/-- **C10** witness: a concrete creation (reachable only on the override path,
since the scan demands exactly one collected candidate), then a replay of the
same key one hour later returning the cached response unchanged. -/
theorem C10_witness :
    createBook stAfterForceEx 3600 true reqForceIdemEx "other-id" "other-id2"
      = (.cachedHit respForceEx, stAfterForceEx) :=
  C10_idempotent_replay dukeCatalogEx 0 3600 reqForceIdemEx reqForceIdemEx "k2"
    "bk2" "au-x" "other-id" "other-id2" respForceEx stAfterForceEx
    rfl rfl (by decide) (by decide)

end BookShook
